import Mathlib

/-!
# MPU6050 DMP orientation tracker

A shallow embedding of `MPU6050Libized.cpp` (the orientation tracker) and of
`MPU6050_6Axis_MotionApps20.cpp` (DMP bring-up and packet decoding).

* `float` values are elements of an ordered field `α` (exact arithmetic); the C
  library functions `atan2`, `sqrt` and the constant `PI` are the fields of a
  `MathLib α` record, with `realMath` their meaning over the real numbers.
* `uint8_t` / `uint16_t` / `int16_t` values are `Nat` / `Int` with explicit
  reductions modulo `2^8` / `2^16`.
* The register accessors of the `MPU6050` base class, the Arduino calls
  (`delay`, `pinMode`, `attachInterrupt`, `Wire`) and the header constants are
  not part of the sources.  Every such call made by the synchronous program is
  appended to a trace in program order, and the value it returns is read from a
  simulated device (`Device`), indexed by how often the call was made before.
* `Serial` output is not modelled.
-/

namespace LEDMatrixGames

/-! ## Arithmetic and data carriers -/

/-- The C math library as used by the decode path: `atan2(y, x)`, `sqrt(x)` and
the Arduino constant `PI`. -/
structure MathLib (α : Type) where
  atan2 : α → α → α
  sqrt : α → α
  PI : α

/-- Interpretation of the math library over the real numbers: `atan2 y x` is the
argument of `x + y i`, in `(-π, π]`. -/
noncomputable def realMath : MathLib ℝ where
  atan2 := fun y x => Complex.arg ⟨x, y⟩
  sqrt := Real.sqrt
  PI := Real.pi

/-- The `Quaternion` class of `helper_3dmath.h`: `[w, x, y, z]`. -/
structure Quaternion (α : Type) where
  w : α
  x : α
  y : α
  z : α

/-- The `VectorFloat` class of `helper_3dmath.h`: `[x, y, z]`. -/
structure VectorFloat (α : Type) where
  x : α
  y : α
  z : α

/-- The result record `struct YawPitchRoll` of `MPU6050Libized.h`. -/
structure YawPitchRoll (α : Type) where
  yaw : α
  pitch : α
  roll : α

/-- Conversion of an integer value to `int16_t` (two's complement, modulo `2^16`). -/
def toInt16 (n : Nat) : Int :=
  if n % 65536 < 32768 then ((n % 65536 : Nat) : Int) else ((n % 65536 : Nat) : Int) - 65536

/-- Reading `packet[i]` as a `uint8_t`. -/
def byteAt (packet : List Nat) (i : Nat) : Nat :=
  packet.getD i 0 % 256

/-- High byte of the big-endian two's-complement 16-bit encoding of `v`. -/
def be16hi (v : Int) : Nat :=
  (v % 65536).toNat / 256

/-- Low byte of the big-endian two's-complement 16-bit encoding of `v`. -/
def be16lo (v : Int) : Nat :=
  (v % 65536).toNat % 256

/-! ## Platform, device and trace -/

/-- Interrupt service routines that can be attached to a pin. -/
inductive ISR where
  | dmpDataReady
  deriving DecidableEq, Repr

/-- Arduino interrupt trigger modes. -/
inductive EdgeMode where
  | LOW
  | CHANGE
  | RISING
  | FALLING
  deriving DecidableEq, Repr

/-- The `I2CDEV_IMPLEMENTATION` build setting. -/
inductive I2CImpl where
  | I2CDEV_ARDUINO_WIRE
  | I2CDEV_BUILTIN_FASTWIRE
  | other
  deriving DecidableEq, Repr

/-- Effects of the synchronous program, one constructor per call: register
accessors of the `MPU6050` class, Arduino platform calls, and the store to the
volatile static flag `mpuInterrupt`. -/
inductive Op where
  | pinModeInput (pin : Nat)
  | wireBegin
  | wireSetClock (hz : Nat)
  | fastwireSetup (khz : Nat) (pullup : Bool)
  | mpuInitialize
  | testConnection
  | delay (ms : Nat)
  | reset
  | setSleepEnabled (enabled : Bool)
  | setMemoryBank (bank : Nat) (prefetchEnabled : Bool) (userBank : Bool)
  | setMemoryStartAddress (address : Nat)
  | readMemoryByte
  | getOTPBankValid
  | setSlaveAddress (num : Nat) (address : Nat)
  | setI2CMasterModeEnabled (enabled : Bool)
  | resetI2CMaster
  | setClockSource (source : Nat)
  | setIntEnabled (enabled : Nat)
  | setRate (rate : Nat)
  | setExternalFrameSync (sync : Nat)
  | setDLPFMode (mode : Nat)
  | setFullScaleGyroRange (range : Nat)
  | writeProgMemoryBlock (dataSize : Nat)
  | writeMemoryBlock (data : List Nat) (dataSize : Nat) (bank : Nat) (address : Nat)
  | setDMPConfig1 (config : Nat)
  | setDMPConfig2 (config : Nat)
  | setOTPBankValid (enabled : Bool)
  | setMotionDetectionThreshold (threshold : Nat)
  | setZeroMotionDetectionThreshold (threshold : Nat)
  | setMotionDetectionDuration (duration : Nat)
  | setZeroMotionDetectionDuration (duration : Nat)
  | setFIFOEnabled (enabled : Bool)
  | resetDMP
  | setDMPEnabled (enabled : Bool)
  | resetFIFO
  | getIntStatus
  | getFIFOCount
  | getFIFOBytes (length : Nat)
  | setXAccelOffset (offset : Int)
  | setYAccelOffset (offset : Int)
  | setZAccelOffset (offset : Int)
  | setXGyroOffset (offset : Int)
  | setYGyroOffset (offset : Int)
  | setZGyroOffset (offset : Int)
  | attachInterrupt (interruptNum : Nat) (isr : ISR) (mode : EdgeMode)
  | storeMpuInterrupt (value : Bool)
  deriving DecidableEq, Repr

/-- Build-time settings and header constants that the sources use but do not
define (`MPU6050.h`, `MPU6050_6Axis_MotionApps20.h`, the Arduino core). -/
structure Build where
  DEBUG : Bool
  I2CDEV_IMPLEMENTATION : I2CImpl
  digitalPinToInterrupt : Nat → Nat
  MPU6050_CLOCK_PLL_ZGYRO : Nat
  MPU6050_INTERRUPT_FIFO_OFLOW_BIT : Nat
  MPU6050_INTERRUPT_DMP_INT_BIT : Nat
  MPU6050_EXT_SYNC_TEMP_OUT_L : Nat
  MPU6050_DLPF_BW_42 : Nat
  MPU6050_GYRO_FS_2000 : Nat
  MPU6050_DMP_CODE_SIZE : Nat
  MPU6050_DMP_FIFO_RATE_DIVISOR : Nat

/-- The register values of the i2cdevlib headers, without debug output, on the
Arduino Wire bus. -/
def stockBuild : Build where
  DEBUG := false
  I2CDEV_IMPLEMENTATION := I2CImpl.I2CDEV_ARDUINO_WIRE
  digitalPinToInterrupt := fun pin => pin - 2
  MPU6050_CLOCK_PLL_ZGYRO := 3
  MPU6050_INTERRUPT_FIFO_OFLOW_BIT := 4
  MPU6050_INTERRUPT_DMP_INT_BIT := 1
  MPU6050_EXT_SYNC_TEMP_OUT_L := 1
  MPU6050_DLPF_BW_42 := 3
  MPU6050_GYRO_FS_2000 := 3
  MPU6050_DMP_CODE_SIZE := 1929
  MPU6050_DMP_FIFO_RATE_DIVISOR := 1

/-- Modelled from the spec: the bus-attached sensor is an external collaborator
whose register accessors are not in the sources.  A simulated device fixes what
each value-returning accessor answers on its `k`-th call (`fifoByte k` is the
`k`-th byte the FIFO delivers). -/
structure Device where
  testConnection : Nat → Bool
  getFIFOCount : Nat → Nat
  getIntStatus : Nat → Nat
  fifoByte : Nat → Nat
  writeProgMemoryBlock : Nat → Bool
  writeMemoryBlock : Nat → Bool

/-- The `MPU6050` object: the two members the sources touch, the simulated
device behind the bus, the number of calls made so far to each value-returning
accessor, and the trace of effects (oldest first). -/
structure MPU6050 where
  dmpPacketBuffer : List Nat
  dmpPacketSize : Nat
  dev : Device
  probes : Nat
  polls : Nat
  statusReads : Nat
  fifoPos : Nat
  uploads : Nat
  blockWrites : Nat
  trace : List Op

/-- The `length` bytes (each a `uint8_t`) that the FIFO of `dev` delivers from
position `pos` of its output stream on. -/
def fifoBytes (dev : Device) (pos length : Nat) : List Nat :=
  (List.range length).map (fun i => dev.fifoByte (pos + i) % 256)

namespace MPU6050

/-- Record one effect at the end of the trace. -/
def log (mpu : MPU6050) (op : Op) : MPU6050 :=
  { mpu with trace := mpu.trace ++ [op] }

/-- Modelled from the spec: `bool testConnection()`, answered by the device. -/
def testConnection (mpu : MPU6050) : Bool × MPU6050 :=
  (mpu.dev.testConnection mpu.probes,
    { mpu.log Op.testConnection with probes := mpu.probes + 1 })

/-- Modelled from the spec: `uint16_t getFIFOCount()`, answered by the device. -/
def getFIFOCount (mpu : MPU6050) : Nat × MPU6050 :=
  (mpu.dev.getFIFOCount mpu.polls % 65536,
    { mpu.log Op.getFIFOCount with polls := mpu.polls + 1 })

/-- Modelled from the spec: `uint8_t getIntStatus()`, answered by the device. -/
def getIntStatus (mpu : MPU6050) : Nat × MPU6050 :=
  (mpu.dev.getIntStatus mpu.statusReads % 256,
    { mpu.log Op.getIntStatus with statusReads := mpu.statusReads + 1 })

/-- Modelled from the spec: `void getFIFOBytes(uint8_t *data, uint8_t length)`
overwrites the first `length` bytes of `data` with the next bytes of the FIFO. -/
def getFIFOBytes (mpu : MPU6050) (data : List Nat) (length : Nat) : List Nat × MPU6050 :=
  (fifoBytes mpu.dev mpu.fifoPos length ++ data.drop length,
    { mpu.log (Op.getFIFOBytes length) with fifoPos := mpu.fifoPos + length })

/-- Modelled from the spec: `bool writeProgMemoryBlock(data, dataSize)` uploads
and verifies the firmware image; the device answers whether it verified. -/
def writeProgMemoryBlock (mpu : MPU6050) (dataSize : Nat) : Bool × MPU6050 :=
  (mpu.dev.writeProgMemoryBlock mpu.uploads,
    { mpu.log (Op.writeProgMemoryBlock dataSize) with uploads := mpu.uploads + 1 })

/-- Modelled from the spec: `bool writeMemoryBlock(data, dataSize, bank, address)`;
the device answers whether the write verified. -/
def writeMemoryBlock (mpu : MPU6050) (data : List Nat) (dataSize bank address : Nat) :
    Bool × MPU6050 :=
  (mpu.dev.writeMemoryBlock mpu.blockWrites,
    { mpu.log (Op.writeMemoryBlock data dataSize bank address) with
      blockWrites := mpu.blockWrites + 1 })

end MPU6050

/-! ## `MPU6050_6Axis_MotionApps20.cpp` -/

section MotionApps

variable {α : Type} [LinearOrderedField α]

/-- `uint8_t MPU6050::dmpInitialize()`: the status code and the device object
afterwards.  `DEBUG_PRINT` / `DEBUG_PRINTLN` evaluate their argument only in a
`DEBUG` build. -/
def dmpInitialize (b : Build) (mpu : MPU6050) : Nat × MPU6050 :=
  -- reset device
  let mpu := mpu.log Op.reset
  let mpu := mpu.log (Op.delay 30)
  -- disable sleep mode
  let mpu := mpu.log (Op.setSleepEnabled false)
  -- get MPU hardware revision
  let mpu := mpu.log (Op.setMemoryBank 0x10 true true)
  let mpu := mpu.log (Op.setMemoryStartAddress 0x06)
  let mpu := mpu.log Op.readMemoryByte
  let mpu := mpu.log (Op.setMemoryBank 0 false false)
  -- check OTP bank valid
  let mpu := if b.DEBUG then mpu.log Op.getOTPBankValid else mpu
  -- setup weird slave stuff (?)
  let mpu := mpu.log (Op.setSlaveAddress 0 0x7F)
  let mpu := mpu.log (Op.setI2CMasterModeEnabled false)
  let mpu := mpu.log (Op.setSlaveAddress 0 0x68)
  let mpu := mpu.log Op.resetI2CMaster
  let mpu := mpu.log (Op.delay 20)
  let mpu := mpu.log (Op.setClockSource b.MPU6050_CLOCK_PLL_ZGYRO)
  let mpu := mpu.log (Op.setIntEnabled
    (((1 <<< b.MPU6050_INTERRUPT_FIFO_OFLOW_BIT) ||| (1 <<< b.MPU6050_INTERRUPT_DMP_INT_BIT)) % 256))
  let mpu := mpu.log (Op.setRate 4)
  let mpu := mpu.log (Op.setExternalFrameSync b.MPU6050_EXT_SYNC_TEMP_OUT_L)
  let mpu := mpu.log (Op.setDLPFMode b.MPU6050_DLPF_BW_42)
  let mpu := mpu.log (Op.setFullScaleGyroRange b.MPU6050_GYRO_FS_2000)
  -- load DMP code into memory banks
  let (loaded, mpu) := mpu.writeProgMemoryBlock b.MPU6050_DMP_CODE_SIZE
  if !loaded then (1, mpu) -- Failed
  else
    -- Set the FIFO Rate Divisor int the DMP Firmware Memory
    let dmpUpdate := [0x00, b.MPU6050_DMP_FIFO_RATE_DIVISOR % 256]
    let (_, mpu) := mpu.writeMemoryBlock dmpUpdate 0x02 0x02 0x16
    let mpu := mpu.log (Op.setDMPConfig1 0x03)
    let mpu := mpu.log (Op.setDMPConfig2 0x00)
    let mpu := mpu.log (Op.setOTPBankValid false)
    let mpu := mpu.log (Op.setMotionDetectionThreshold 2)
    let mpu := mpu.log (Op.setZeroMotionDetectionThreshold 156)
    let mpu := mpu.log (Op.setMotionDetectionDuration 80)
    let mpu := mpu.log (Op.setZeroMotionDetectionDuration 0)
    let mpu := mpu.log (Op.setFIFOEnabled true)
    let mpu := mpu.log Op.resetDMP
    let mpu := mpu.log (Op.setDMPEnabled false)
    let mpu := { mpu with dmpPacketSize := 42 }
    let mpu := mpu.log Op.resetFIFO
    let (_, mpu) := mpu.getIntStatus
    (0, mpu) -- success

/-- `uint8_t MPU6050::dmpGetQuaternion(int16_t *data, const uint8_t* packet)`:
the status and `data[0..3]`.  A null `packet` is `none`. -/
def dmpGetQuaternion_int16 (mpu : MPU6050) (packet : Option (List Nat)) :
    Nat × (Int × Int × Int × Int) :=
  let packet := match packet with
    | none => mpu.dmpPacketBuffer
    | some p => p
  (0, (toInt16 ((byteAt packet 0 <<< 8) ||| byteAt packet 1),
       toInt16 ((byteAt packet 4 <<< 8) ||| byteAt packet 5),
       toInt16 ((byteAt packet 8 <<< 8) ||| byteAt packet 9),
       toInt16 ((byteAt packet 12 <<< 8) ||| byteAt packet 13)))

/-- `uint8_t MPU6050::dmpGetQuaternion(Quaternion *q, const uint8_t* packet)`:
the status and the contents of `*q` afterwards. -/
def dmpGetQuaternion (mpu : MPU6050) (q : Quaternion α) (packet : Option (List Nat)) :
    Nat × Quaternion α :=
  let (status, qI) := dmpGetQuaternion_int16 mpu packet
  if status = 0 then
    (0, { w := (qI.1 : α) / 16384
          x := (qI.2.1 : α) / 16384
          y := (qI.2.2.1 : α) / 16384
          z := (qI.2.2.2 : α) / 16384 })
  else (status, q)

/-- `uint8_t MPU6050::dmpGetGravity(VectorFloat *v, Quaternion *q)`: the status
and the contents of `*v` and `*q` afterwards. -/
def dmpGetGravity (_v : VectorFloat α) (q : Quaternion α) : Nat × VectorFloat α × Quaternion α :=
  (0, { x := 2 * (q.x * q.z - q.w * q.y)
        y := 2 * (q.w * q.x + q.y * q.z)
        z := q.w * q.w - q.x * q.x - q.y * q.y + q.z * q.z }, q)

/-- `uint8_t MPU6050::dmpGetYawPitchRoll(float *data, Quaternion *q, VectorFloat
*gravity)` (the variant compiled without `USE_OLD_DMPGETYAWPITCHROLL`): the
status and `data[0]`, `data[1]`, `data[2]` afterwards. -/
def dmpGetYawPitchRoll (m : MathLib α) (_data : α × α × α) (q : Quaternion α)
    (gravity : VectorFloat α) : Nat × (α × α × α) :=
  -- yaw: (about Z axis)
  let data0 := m.atan2 (2 * q.x * q.y - 2 * q.w * q.z) (2 * q.w * q.w + 2 * q.x * q.x - 1)
  -- pitch: (nose up/down, about Y axis)
  let data1 := m.atan2 gravity.x (m.sqrt (gravity.y * gravity.y + gravity.z * gravity.z))
  -- roll: (tilt left/right, about X axis)
  let data2 := m.atan2 gravity.y gravity.z
  let data1 :=
    if gravity.z < 0 then
      if data1 > 0 then m.PI - data1 else -m.PI - data1
    else data1
  (0, (data0, data1, data2))

/-- `uint16_t MPU6050::dmpGetFIFOPacketSize()`. -/
def dmpGetFIFOPacketSize (mpu : MPU6050) : Nat :=
  mpu.dmpPacketSize

end MotionApps

/-! ## `MPU6050Libized.cpp` -/

/-- The `MPU6050Libized` object together with its static member `mpuInterrupt`.
The members `aa`, `aaReal`, `aaWorld` are never accessed and are left out. -/
structure MPU6050Libized (α : Type) where
  mpuInterrupt : Bool
  _interrupPin : Nat
  mpu : MPU6050
  mpuIntStatus : Nat
  packetSize : Nat
  fifoCount : Nat
  fifoBuffer : List Nat
  q : Quaternion α
  gravity : VectorFloat α
  ypr : α × α × α

section Tracker

variable {α : Type} [LinearOrderedField α]

/-- The constructor `MPU6050Libized::MPU6050Libized(uint8_t interruptPin)`,
run on storage with arbitrary prior contents `u`. -/
def MPU6050Libized.new (u : MPU6050Libized α) (interruptPin : Nat) : MPU6050Libized α :=
  { u with
    mpu := u.mpu.log (Op.pinModeInput (interruptPin % 256))
    _interrupPin := interruptPin % 256
    ypr := (0, 0, 0) }

/-- The interrupt service routine `static void dmpDataReady()`. -/
def dmpDataReady (t : MPU6050Libized α) : MPU6050Libized α :=
  { t with mpuInterrupt := true }

/-- The connection loop of `init`:
`while (!mpu.testConnection()) { if (connectFailedCounter++ >= 5) return false; delay(500); }`.
The result is `none` when the fuel runs out, otherwise whether the loop was left
normally (`true`) or through `return false`, and the device object. -/
def connectLoop : Nat → Nat → MPU6050 → Option (Bool × MPU6050)
  | 0, _, _ => none
  | fuel + 1, connectFailedCounter, mpu =>
    let (connected, mpu) := mpu.testConnection
    if connected then some (true, mpu)
    else if connectFailedCounter ≥ 5 then some (false, mpu)
    else connectLoop fuel ((connectFailedCounter + 1) % 256) (mpu.log (Op.delay 500))

/-- The bus set-up that opens `init`, selected by `I2CDEV_IMPLEMENTATION`:
`Wire.begin(); Wire.setClock(400000);` or `Fastwire::setup(400, true);`. -/
def busSetup (b : Build) (mpu : MPU6050) : MPU6050 :=
  match b.I2CDEV_IMPLEMENTATION with
  | I2CImpl.I2CDEV_ARDUINO_WIRE => (mpu.log Op.wireBegin).log (Op.wireSetClock 400000)
  | I2CImpl.I2CDEV_BUILTIN_FASTWIRE => mpu.log (Op.fastwireSetup 400 true)
  | I2CImpl.other => mpu

/-- `bool MPU6050Libized::init(int16_t xa, ..., int16_t zg)`: the returned flag
and the object afterwards (`none` only if the connection loop ran out of its
six iterations of fuel, which it cannot). -/
def init (b : Build) (t : MPU6050Libized α) (xa ya za xg yg zg : Int) :
    Option (Bool × MPU6050Libized α) :=
  let mpu := busSetup b t.mpu
  -- initialize device
  let mpu := mpu.log Op.mpuInitialize
  -- verify connection
  match connectLoop 6 0 mpu with
  | none => none
  | some (false, mpu) => some (false, { t with mpu := mpu })
  | some (true, mpu) =>
    -- load and configure the DMP
    let (devStatus, mpu) := dmpInitialize b mpu
    let mpu := mpu.log (Op.setXAccelOffset xa)
    let mpu := mpu.log (Op.setYAccelOffset ya)
    let mpu := mpu.log (Op.setZAccelOffset za)
    let mpu := mpu.log (Op.setXGyroOffset xg)
    let mpu := mpu.log (Op.setYGyroOffset yg)
    let mpu := mpu.log (Op.setZGyroOffset zg)
    -- make sure it worked (returns 0 if so)
    if devStatus = 0 then
      -- turn on the DMP as it is ready
      let mpu := mpu.log (Op.setDMPEnabled true)
      -- enable interrupt detection on the Arduino
      let mpu := mpu.log
        (Op.attachInterrupt (b.digitalPinToInterrupt t._interrupPin) ISR.dmpDataReady EdgeMode.FALLING)
      let (status, mpu) := mpu.getIntStatus
      -- get expected DMP packet size for later comparison
      some (true, { t with mpu := mpu, mpuIntStatus := status, packetSize := dmpGetFIFOPacketSize mpu })
    else
      some (false, { t with mpu := mpu })

/-- `bool MPU6050Libized::checkMPUDataAvailable()`: the returned flag and the
object afterwards. -/
def checkMPUDataAvailable (t : MPU6050Libized α) : Bool × MPU6050Libized α :=
  (t.mpuInterrupt, t)

/-- The two statements that end the body of the drain loop:
`mpu.getFIFOBytes(fifoBuffer, packetSize); fifoCount -= packetSize;`. -/
def drainStep (t : MPU6050Libized α) : MPU6050Libized α :=
  let (buffer, mpu) := t.mpu.getFIFOBytes t.fifoBuffer t.packetSize
  { t with mpu := mpu, fifoBuffer := buffer, fifoCount := (t.fifoCount - t.packetSize) % 65536 }

/-- The drain loop of `getYawPitchRoll`:
`while (fifoCount >= packetSize) { if (fifoCount < packetSize) break; ... }`.
The result is `none` when the fuel runs out. -/
def drainLoop : Nat → MPU6050Libized α → Option (MPU6050Libized α)
  | 0, _ => none
  | fuel + 1, t =>
    if t.fifoCount ≥ t.packetSize then
      if t.fifoCount < t.packetSize then some t -- Something is left over and we don't want it!!!
      else drainLoop fuel (drainStep t)
    else some t

/-- The local `uint16_t maxPackets = 20` of `getYawPitchRoll`. -/
def maxPackets : Nat := 20

/-- The opening of `getYawPitchRoll`:
`mpuInterrupt = false; fifoCount = mpu.getFIFOCount();`. -/
def pollCount (t : MPU6050Libized α) : MPU6050Libized α :=
  let t := { t with mpuInterrupt := false, mpu := t.mpu.log (Op.storeMpuInterrupt false) }
  let (count, mpu) := t.mpu.getFIFOCount
  { t with fifoCount := count, mpu := mpu }

/-- The branch of `getYawPitchRoll` taken on a corrupt count:
`mpuIntStatus = mpu.getIntStatus(); mpu.resetFIFO(); mpu.getIntStatus();
return { ypr[0], ypr[1], ypr[2] };`. -/
def recoverFIFO (t : MPU6050Libized α) : MPU6050Libized α × YawPitchRoll α :=
  let (status, mpu) := t.mpu.getIntStatus
  let mpu := mpu.log Op.resetFIFO -- clear the buffer and start over
  let (_, mpu) := mpu.getIntStatus -- make sure status is cleared as we will read it again.
  ({ t with mpuIntStatus := status, mpu := mpu },
   { yaw := t.ypr.1, pitch := t.ypr.2.1, roll := t.ypr.2.2 })

/-- The statements of `getYawPitchRoll` behind the drain loop:
`mpu.dmpGetQuaternion(&q, fifoBuffer); mpu.dmpGetGravity(&gravity, &q);
mpu.dmpGetYawPitchRoll(ypr, &q, &gravity); if (fifoCount > 0) mpu.resetFIFO();
return { ypr[0], ypr[1], ypr[2] };`. -/
def decodePacket (m : MathLib α) (t : MPU6050Libized α) : MPU6050Libized α × YawPitchRoll α :=
  let (_, q) := dmpGetQuaternion t.mpu t.q (some t.fifoBuffer)
  let (_, gravity, q) := dmpGetGravity t.gravity q
  let (_, ypr) := dmpGetYawPitchRoll m t.ypr q gravity
  let mpu := if t.fifoCount > 0 then t.mpu.log Op.resetFIFO else t.mpu
  ({ t with q := q, gravity := gravity, ypr := ypr, mpu := mpu },
   { yaw := ypr.1, pitch := ypr.2.1, roll := ypr.2.2 })

/-- `YawPitchRoll MPU6050Libized::getYawPitchRoll()`: the object afterwards and
the returned record.  The result is `none` when `packetSize` is `0`: the
remainder `fifoCount % packetSize` is then undefined and the drain loop would
not stop.  The product `packetSize * maxPackets` is taken in 16-bit unsigned
arithmetic; the drain loop gets `fifoCount + 1` iterations of fuel. -/
def getYawPitchRoll (m : MathLib α) (t : MPU6050Libized α) :
    Option (MPU6050Libized α × YawPitchRoll α) :=
  let t := pollCount t
  if t.packetSize = 0 then none
  else if t.fifoCount % t.packetSize ≠ 0 ∨ t.fifoCount > (t.packetSize * maxPackets) % 65536
      ∨ t.fifoCount < t.packetSize then
    some (recoverFIFO t)
  else
    match drainLoop (t.fifoCount + 1) t with
    | none => none
    | some t => some (decodePacket m t)

end Tracker

/-! ## Expected call sequences -/

/-- The calls `dmpInitialize` is expected to make up to and including the
firmware upload, in order. -/
def bringUpOps (b : Build) : List Op :=
  [Op.reset, Op.delay 30, Op.setSleepEnabled false, Op.setMemoryBank 0x10 true true,
    Op.setMemoryStartAddress 0x06, Op.readMemoryByte, Op.setMemoryBank 0 false false]
  ++ (if b.DEBUG then [Op.getOTPBankValid] else [])
  ++ [Op.setSlaveAddress 0 0x7F, Op.setI2CMasterModeEnabled false, Op.setSlaveAddress 0 0x68,
    Op.resetI2CMaster, Op.delay 20, Op.setClockSource b.MPU6050_CLOCK_PLL_ZGYRO,
    Op.setIntEnabled (((1 <<< b.MPU6050_INTERRUPT_FIFO_OFLOW_BIT)
      ||| (1 <<< b.MPU6050_INTERRUPT_DMP_INT_BIT)) % 256),
    Op.setRate 4, Op.setExternalFrameSync b.MPU6050_EXT_SYNC_TEMP_OUT_L,
    Op.setDLPFMode b.MPU6050_DLPF_BW_42, Op.setFullScaleGyroRange b.MPU6050_GYRO_FS_2000,
    Op.writeProgMemoryBlock b.MPU6050_DMP_CODE_SIZE]

/-- The calls `dmpInitialize` is expected to make after a verified upload, in
order. -/
def configOps (b : Build) : List Op :=
  [Op.writeMemoryBlock [0x00, b.MPU6050_DMP_FIFO_RATE_DIVISOR % 256] 0x02 0x02 0x16,
    Op.setDMPConfig1 0x03, Op.setDMPConfig2 0x00, Op.setOTPBankValid false,
    Op.setMotionDetectionThreshold 2, Op.setZeroMotionDetectionThreshold 156,
    Op.setMotionDetectionDuration 80, Op.setZeroMotionDetectionDuration 0,
    Op.setFIFOEnabled true, Op.resetDMP, Op.setDMPEnabled false, Op.resetFIFO, Op.getIntStatus]

/-- The calls the connection loop is expected to make when the first `k` probes
fail and it then leaves: `k` rounds of probe and 500 ms delay, and a last probe. -/
def probeOps : Nat → List Op
  | 0 => [Op.testConnection]
  | k + 1 => Op.testConnection :: Op.delay 500 :: probeOps k

/-- The calls of the bus set-up that opens `init`. -/
def busSetupOps (b : Build) : List Op :=
  match b.I2CDEV_IMPLEMENTATION with
  | I2CImpl.I2CDEV_ARDUINO_WIRE => [Op.wireBegin, Op.wireSetClock 400000]
  | I2CImpl.I2CDEV_BUILTIN_FASTWIRE => [Op.fastwireSetup 400 true]
  | I2CImpl.other => []

/-- The six offset writes of `init`, in order. -/
def offsetOps (xa ya za xg yg zg : Int) : List Op :=
  [Op.setXAccelOffset xa, Op.setYAccelOffset ya, Op.setZAccelOffset za,
    Op.setXGyroOffset xg, Op.setYGyroOffset yg, Op.setZGyroOffset zg]

/-- The two calls by which `init` puts the DMP into service: `setDMPEnabled(true)`
and `attachInterrupt(...)`. -/
def Op.startsDMP : Op → Bool
  | Op.setDMPEnabled true => true
  | Op.attachInterrupt _ _ _ => true
  | _ => false

/-! ## Fixtures -/

/-- A device that answers the third connection probe and whose firmware upload
does not verify. -/
def uploadFailDevice : Device where
  testConnection := fun k => decide (2 ≤ k)
  getFIFOCount := fun _ => 0
  getIntStatus := fun _ => 0
  fifoByte := fun _ => 0
  writeProgMemoryBlock := fun _ => false
  writeMemoryBlock := fun _ => true

/-- A device whose firmware upload verifies and whose configuration write (the
FIFO-rate bytes) does not. -/
def patchFailDevice : Device where
  testConnection := fun _ => true
  getFIFOCount := fun _ => 0
  getIntStatus := fun _ => 0
  fifoByte := fun _ => 0
  writeProgMemoryBlock := fun _ => true
  writeMemoryBlock := fun _ => false


/-- A device that never answers the connection probe, reports an empty FIFO,
delivers zero bytes and verifies every memory write. -/
def silentDevice : Device where
  testConnection := fun _ => false
  getFIFOCount := fun _ => 0
  getIntStatus := fun _ => 0
  fifoByte := fun _ => 0
  writeProgMemoryBlock := fun _ => true
  writeMemoryBlock := fun _ => true

/-- A device object on which nothing has been called yet. -/
def freshMPU (dev : Device) : MPU6050 where
  dmpPacketBuffer := []
  dmpPacketSize := 0
  dev := dev
  probes := 0
  polls := 0
  statusReads := 0
  fifoPos := 0
  uploads := 0
  blockWrites := 0
  trace := []

/-- A device that answers the first connection probe, reports `84` bytes (two
packets) in its FIFO and delivers the bytes `0, 1, 2, ...`. -/
def countingDevice : Device where
  testConnection := fun _ => true
  getFIFOCount := fun _ => 84
  getIntStatus := fun _ => 0
  fifoByte := fun k => k
  writeProgMemoryBlock := fun _ => true
  writeMemoryBlock := fun _ => true

/-- A tracker object after a successful `init`: packet size `42`, cached
orientation `(1, 2, 3)`, a zeroed 64-byte FIFO buffer. -/
def readyTracker (α : Type) [LinearOrderedField α] (dev : Device) : MPU6050Libized α where
  mpuInterrupt := true
  _interrupPin := 2
  mpu := freshMPU dev
  mpuIntStatus := 0
  packetSize := 42
  fifoCount := 0
  fifoBuffer := List.replicate 64 0
  q := ⟨1, 0, 0, 0⟩
  gravity := ⟨0, 0, 1⟩
  ypr := (1, 2, 3)

/-- The capacity of the hardware FIFO in packets, as given by the comment on
`maxPackets` in `getYawPitchRoll` ("out of a total of 24 packets"). -/
def fifoCapacityPackets : Nat := 24

/-- The caller's loop: `n` successive calls of `getYawPitchRoll`, with the
records they return, oldest first. -/
def pollLoop {α : Type} [LinearOrderedField α] (m : MathLib α) :
    Nat → MPU6050Libized α → Option (MPU6050Libized α × List (YawPitchRoll α))
  | 0, t => some (t, [])
  | n + 1, t =>
    match getYawPitchRoll m t with
    | none => none
    | some (t1, r) =>
      match pollLoop m n t1 with
      | none => none
      | some (t2, rs) => some (t2, r :: rs)

/-- A device that reports one packet (`42` bytes) in its FIFO; every packet it
delivers starts with `0x40` and is zero elsewhere, the identity quaternion. -/
def identityDevice : Device where
  testConnection := fun _ => true
  getFIFOCount := fun _ => 42
  getIntStatus := fun _ => 0
  fifoByte := fun k => if k % 42 = 0 then 0x40 else 0
  writeProgMemoryBlock := fun _ => true
  writeMemoryBlock := fun _ => true

/-- A packet that agrees with `samplePacket` on the bytes at offsets 0, 1, 4, 5,
8, 9, 12, 13 and differs on the others. -/
def samplePacketVariant : List Nat :=
  [0x40, 0x00, 0x01, 0x02, 0xFF, 0xFF, 0x03, 0x04, 0x12, 0x34, 0x05, 0x06, 0x80, 0x00, 0x07, 0x08,
    0x09, 0x0A]

/-- A packet whose quaternion fields hold `16384, -1, 4660, -32768`. -/
def samplePacket : List Nat :=
  [0x40, 0x00, 0xAA, 0xBB, 0xFF, 0xFF, 0xCC, 0xDD, 0x12, 0x34, 0xEE, 0x11, 0x80, 0x00, 0x22, 0x33]

/-! ## Packet decoding -/

theorem be16_decode (v : Int) (hlo : -32768 ≤ v) (hhi : v ≤ 32767) :
    toInt16 ((be16hi v <<< 8) ||| be16lo v) = v := by
  have hn : (v % 65536).toNat < 65536 := by omega
  have hor : (be16hi v <<< 8) ||| be16lo v = (v % 65536).toNat := by
    unfold be16hi be16lo
    rw [Nat.shiftLeft_eq, Nat.mul_comm]
    have h := Nat.mul_add_lt_is_or (i := 8) (b := (v % 65536).toNat % 256) (by omega)
      ((v % 65536).toNat / 256)
    rw [← h]
    omega
  rw [hor]
  unfold toInt16
  split <;> omega

/-- C3: a packet that holds `w, x, y, z` as big-endian two's-complement 16-bit
values at byte offsets 0-1, 4-5, 8-9 and 12-13 decodes with status `0` to exactly
`(w/16384, x/16384, y/16384, z/16384)`, and the `int16_t` variant returns
exactly `(w, x, y, z)`. -/
theorem dmpGetQuaternion_roundtrip {α : Type} [LinearOrderedField α] (mpu : MPU6050)
    (q0 : Quaternion α) (packet : List Nat) (w x y z : Int)
    (hw : -32768 ≤ w ∧ w ≤ 32767) (hx : -32768 ≤ x ∧ x ≤ 32767)
    (hy : -32768 ≤ y ∧ y ≤ 32767) (hz : -32768 ≤ z ∧ z ≤ 32767)
    (pw : byteAt packet 0 = be16hi w ∧ byteAt packet 1 = be16lo w)
    (px : byteAt packet 4 = be16hi x ∧ byteAt packet 5 = be16lo x)
    (py : byteAt packet 8 = be16hi y ∧ byteAt packet 9 = be16lo y)
    (pz : byteAt packet 12 = be16hi z ∧ byteAt packet 13 = be16lo z) :
    dmpGetQuaternion mpu q0 (some packet)
        = (0, { w := (w : α) / 16384, x := (x : α) / 16384, y := (y : α) / 16384,
                z := (z : α) / 16384 })
      ∧ dmpGetQuaternion_int16 mpu (some packet) = (0, (w, x, y, z)) := by
  have h16 : dmpGetQuaternion_int16 mpu (some packet) = (0, (w, x, y, z)) := by
    simp only [dmpGetQuaternion_int16, pw.1, pw.2, px.1, px.2, py.1, py.2, pz.1, pz.2,
      be16_decode w hw.1 hw.2, be16_decode x hx.1 hx.2, be16_decode y hy.1 hy.2,
      be16_decode z hz.1 hz.2]
  refine ⟨?_, h16⟩
  simp only [dmpGetQuaternion, h16, if_true]

theorem dmpGetQuaternion_roundtrip_witness :
    dmpGetQuaternion (freshMPU silentDevice) (⟨0, 0, 0, 0⟩ : Quaternion ℚ) (some samplePacket)
        = (0, { w := ((16384 : Int) : ℚ) / 16384, x := ((-1 : Int) : ℚ) / 16384,
                y := ((4660 : Int) : ℚ) / 16384, z := ((-32768 : Int) : ℚ) / 16384 })
      ∧ dmpGetQuaternion_int16 (freshMPU silentDevice) (some samplePacket)
        = (0, (16384, -1, 4660, -32768)) :=
  dmpGetQuaternion_roundtrip (freshMPU silentDevice) ⟨0, 0, 0, 0⟩ samplePacket 16384 (-1) 4660
    (-32768) (by decide) (by decide) (by decide) (by decide) (by decide) (by decide) (by decide)
    (by decide)

/-! ## Gravity and yaw / pitch / roll -/

/-- C4: `dmpGetGravity` returns status `0`, stores `gx = 2(xz - wy)`,
`gy = 2(wx + yz)`, `gz = ww - xx - yy + zz`, leaves the quaternion as it was,
and maps the identity quaternion `(1, 0, 0, 0)` to `(0, 0, 1)`. -/
theorem dmpGetGravity_formula {α : Type} [LinearOrderedField α] (v : VectorFloat α)
    (q : Quaternion α) :
    (dmpGetGravity v q).1 = 0
      ∧ (dmpGetGravity v q).2.1.x = 2 * (q.x * q.z - q.w * q.y)
      ∧ (dmpGetGravity v q).2.1.y = 2 * (q.w * q.x + q.y * q.z)
      ∧ (dmpGetGravity v q).2.1.z = q.w * q.w - q.x * q.x - q.y * q.y + q.z * q.z
      ∧ (dmpGetGravity v q).2.2 = q
      ∧ (dmpGetGravity v ⟨1, 0, 0, 0⟩).2.1 = ⟨0, 0, 1⟩ := by
  refine ⟨rfl, rfl, rfl, rfl, rfl, ?_⟩
  simp [dmpGetGravity]

theorem realMath_atan2_zero_neg_one : realMath.atan2 0 (-1) = Real.pi := by
  have h : (⟨-1, 0⟩ : ℂ) = -1 := by apply Complex.ext <;> simp
  show Complex.arg ⟨-1, 0⟩ = Real.pi
  rw [h, Complex.arg_neg_one]

theorem realMath_atan2_zero_one : realMath.atan2 0 1 = 0 := by
  have h : (⟨1, 0⟩ : ℂ) = 1 := by apply Complex.ext <;> simp
  show Complex.arg ⟨1, 0⟩ = 0
  rw [h, Complex.arg_one]

/-- C5 fails as stated: for the gravity vector `(0, 0, -1)` (so `gz < 0`) the raw
roll `atan2(0, -1) = π` is positive, yet the roll output is `π`, not `π - π`. -/
theorem roll_remap_counterexample :
    (⟨0, 0, -1⟩ : VectorFloat ℝ).z < 0
      ∧ 0 < realMath.atan2 (⟨0, 0, -1⟩ : VectorFloat ℝ).y (⟨0, 0, -1⟩ : VectorFloat ℝ).z
      ∧ (dmpGetYawPitchRoll realMath (0, 0, 0) ⟨1, 0, 0, 0⟩ ⟨0, 0, -1⟩).2.2.2
          ≠ realMath.PI
            - realMath.atan2 (⟨0, 0, -1⟩ : VectorFloat ℝ).y (⟨0, 0, -1⟩ : VectorFloat ℝ).z := by
  have hpi := Real.pi_pos
  refine ⟨by norm_num, ?_, ?_⟩
  · show 0 < realMath.atan2 0 (-1)
    rw [realMath_atan2_zero_neg_one]; exact hpi
  · show realMath.atan2 0 (-1) ≠ realMath.PI - realMath.atan2 0 (-1)
    rw [realMath_atan2_zero_neg_one]
    show Real.pi ≠ Real.pi - Real.pi
    intro h
    linarith

/-- C5 (amended): for every math library, quaternion and gravity vector, with
`gz < 0` or not, the roll output `data[2]` is `atan2(gy, gz)` itself; no `±π`
remap is applied to it. -/
theorem dmpGetYawPitchRoll_roll {α : Type} [LinearOrderedField α] (m : MathLib α)
    (data : α × α × α) (q : Quaternion α) (gravity : VectorFloat α) :
    (dmpGetYawPitchRoll m data q gravity).2.2.2 = m.atan2 gravity.y gravity.z := by
  rfl

/-- C6 fails as stated: for the gravity vector `(0, 0, -1)` the pitch output is
`-π`, while `atan2(gx, sqrt(gy*gy + gz*gz)) = atan2(0, 1) = 0`. -/
theorem pitch_counterexample :
    (dmpGetYawPitchRoll realMath (0, 0, 0) ⟨1, 0, 0, 0⟩ ⟨0, 0, -1⟩).2.2.1 = -Real.pi
      ∧ realMath.atan2 (⟨0, 0, -1⟩ : VectorFloat ℝ).x
          (realMath.sqrt ((⟨0, 0, -1⟩ : VectorFloat ℝ).y * (⟨0, 0, -1⟩ : VectorFloat ℝ).y
            + (⟨0, 0, -1⟩ : VectorFloat ℝ).z * (⟨0, 0, -1⟩ : VectorFloat ℝ).z)) = 0
      ∧ (dmpGetYawPitchRoll realMath (0, 0, 0) ⟨1, 0, 0, 0⟩ ⟨0, 0, -1⟩).2.2.1
          ≠ realMath.atan2 (⟨0, 0, -1⟩ : VectorFloat ℝ).x
              (realMath.sqrt ((⟨0, 0, -1⟩ : VectorFloat ℝ).y * (⟨0, 0, -1⟩ : VectorFloat ℝ).y
                + (⟨0, 0, -1⟩ : VectorFloat ℝ).z * (⟨0, 0, -1⟩ : VectorFloat ℝ).z)) := by
  have hs : realMath.sqrt ((0 : ℝ) * 0 + (-1) * (-1)) = 1 := by
    show Real.sqrt ((0 : ℝ) * 0 + (-1) * (-1)) = 1
    norm_num
  have hraw : realMath.atan2 (0 : ℝ) (realMath.sqrt ((0 : ℝ) * 0 + (-1) * (-1))) = 0 := by
    rw [hs, realMath_atan2_zero_one]
  have hout : (dmpGetYawPitchRoll realMath (0, 0, 0) ⟨1, 0, 0, 0⟩ ⟨0, 0, -1⟩).2.2.1
      = -Real.pi := by
    simp only [dmpGetYawPitchRoll]
    rw [hraw]
    have hPI : realMath.PI = Real.pi := rfl
    rw [hPI]
    norm_num
  refine ⟨hout, hraw, ?_⟩
  rw [hout]
  show -Real.pi ≠ realMath.atan2 (0 : ℝ) (realMath.sqrt ((0 : ℝ) * 0 + (-1) * (-1)))
  rw [hraw]
  have hpi := Real.pi_pos
  intro h
  linarith

/-- C6 (amended): the pitch output `data[1]` is `p = atan2(gx, sqrt(gy*gy + gz*gz))`
when `gz ≥ 0`; when `gz < 0` it is remapped to `PI - p` if `p > 0` and to
`-PI - p` otherwise. -/
theorem dmpGetYawPitchRoll_pitch {α : Type} [LinearOrderedField α] (m : MathLib α)
    (data : α × α × α) (q : Quaternion α) (gravity : VectorFloat α) :
    (dmpGetYawPitchRoll m data q gravity).2.2.1
      = if gravity.z < 0 then
          if m.atan2 gravity.x (m.sqrt (gravity.y * gravity.y + gravity.z * gravity.z)) > 0 then
            m.PI - m.atan2 gravity.x (m.sqrt (gravity.y * gravity.y + gravity.z * gravity.z))
          else
            -m.PI - m.atan2 gravity.x (m.sqrt (gravity.y * gravity.y + gravity.z * gravity.z))
        else m.atan2 gravity.x (m.sqrt (gravity.y * gravity.y + gravity.z * gravity.z)) := by
  rfl

/-! ## The pull accessor `getYawPitchRoll` -/

section Pull

variable {α : Type}

theorem fifoBytes_length (dev : Device) (pos length : Nat) :
    (fifoBytes dev pos length).length = length := by
  simp [fifoBytes]

theorem drainStep_frame (t : MPU6050Libized α) :
    (drainStep t).packetSize = t.packetSize
      ∧ (drainStep t).mpuInterrupt = t.mpuInterrupt
      ∧ (drainStep t).q = t.q
      ∧ (drainStep t).gravity = t.gravity
      ∧ (drainStep t).ypr = t.ypr
      ∧ (drainStep t).mpu.dev = t.mpu.dev
      ∧ (drainStep t).mpu.polls = t.mpu.polls
      ∧ (drainStep t).mpu.statusReads = t.mpu.statusReads :=
  ⟨rfl, rfl, rfl, rfl, rfl, rfl, rfl, rfl⟩

/-- What `k` rounds of the drain loop body leave unchanged. -/
theorem drainStep_iterate_frame (k : Nat) (t : MPU6050Libized α) :
    (drainStep^[k] t).packetSize = t.packetSize
      ∧ (drainStep^[k] t).mpuInterrupt = t.mpuInterrupt
      ∧ (drainStep^[k] t).q = t.q
      ∧ (drainStep^[k] t).gravity = t.gravity
      ∧ (drainStep^[k] t).ypr = t.ypr
      ∧ (drainStep^[k] t).mpu.dev = t.mpu.dev
      ∧ (drainStep^[k] t).mpu.polls = t.mpu.polls
      ∧ (drainStep^[k] t).mpu.statusReads = t.mpu.statusReads := by
  induction k with
  | zero => exact ⟨rfl, rfl, rfl, rfl, rfl, rfl, rfl, rfl⟩
  | succ k ih =>
    rw [Function.iterate_succ_apply']
    obtain ⟨h1, h2, h3, h4, h5, h6, h7, h8⟩ := ih
    obtain ⟨g1, g2, g3, g4, g5, g6, g7, g8⟩ := drainStep_frame (drainStep^[k] t)
    exact ⟨g1.trans h1, g2.trans h2, g3.trans h3, g4.trans h4, g5.trans h5, g6.trans h6,
      g7.trans h7, g8.trans h8⟩

/-- The effects of `k` rounds of the drain loop body: `k` reads of one packet
each, `k` packets consumed. -/
theorem drainStep_iterate_effects (k : Nat) (t : MPU6050Libized α) :
    (drainStep^[k] t).mpu.trace
        = t.mpu.trace ++ List.replicate k (Op.getFIFOBytes t.packetSize)
      ∧ (drainStep^[k] t).mpu.fifoPos = t.mpu.fifoPos + k * t.packetSize := by
  induction k with
  | zero => simp
  | succ k ih =>
    rw [Function.iterate_succ_apply']
    have hp := (drainStep_iterate_frame k t).1
    constructor
    · show (drainStep^[k] t).mpu.trace ++ [Op.getFIFOBytes (drainStep^[k] t).packetSize] = _
      rw [ih.1, hp, List.replicate_succ', List.append_assoc]
    · show (drainStep^[k] t).mpu.fifoPos + (drainStep^[k] t).packetSize = _
      rw [ih.2, hp, Nat.succ_mul, Nat.add_assoc]

/-- After `k + 1` rounds of the drain loop body the buffer starts with the
packet read last; the bytes behind it are the old ones. -/
theorem drainStep_iterate_buffer (k : Nat) (t : MPU6050Libized α) :
    (drainStep^[k + 1] t).fifoBuffer
      = fifoBytes t.mpu.dev (t.mpu.fifoPos + k * t.packetSize) t.packetSize
          ++ t.fifoBuffer.drop t.packetSize := by
  induction k with
  | zero => simp [drainStep, MPU6050.getFIFOBytes]
  | succ k ih =>
    rw [Function.iterate_succ_apply']
    have hp := (drainStep_iterate_frame (k + 1) t).1
    have hd := (drainStep_iterate_frame (k + 1) t).2.2.2.2.2.1
    have hpos := (drainStep_iterate_effects (k + 1) t).2
    show fifoBytes (drainStep^[k + 1] t).mpu.dev (drainStep^[k + 1] t).mpu.fifoPos
        (drainStep^[k + 1] t).packetSize
        ++ (drainStep^[k + 1] t).fifoBuffer.drop (drainStep^[k + 1] t).packetSize = _
    rw [hp, hd, hpos, ih, List.drop_append_of_le_length (by rw [fifoBytes_length]),
      List.drop_of_length_le (by rw [fifoBytes_length]), List.nil_append]

/-- The local count after `k` rounds of the drain loop body. -/
theorem drainStep_iterate_count (k : Nat) :
    ∀ (j : Nat) (t : MPU6050Libized α), t.fifoCount = (k + j) * t.packetSize →
      t.fifoCount < 65536 → (drainStep^[k] t).fifoCount = j * t.packetSize := by
  induction k with
  | zero => intro j t h _; simpa using h
  | succ k ih =>
    intro j t h hlt
    rw [Function.iterate_succ_apply]
    have hstep : (drainStep t).fifoCount = (k + j) * t.packetSize := by
      show (t.fifoCount - t.packetSize) % 65536 = _
      have : t.fifoCount - t.packetSize = (k + j) * t.packetSize := by
        rw [h]
        have : (k + 1 + j) * t.packetSize = (k + j) * t.packetSize + t.packetSize := by ring
        omega
      rw [this]
      apply Nat.mod_eq_of_lt
      omega
    have hsplit : (k + 1 + j) * t.packetSize = (k + j) * t.packetSize + t.packetSize := by ring
    have := ih j (drainStep t) hstep (by rw [hstep]; omega)
    simpa using this

/-- The drain loop ends: from a count of exactly `k` packets, any fuel above `k`
lets it run its body `k` times and exit. -/
theorem drainLoop_terminates (k : Nat) :
    ∀ (fuel : Nat) (t : MPU6050Libized α), 0 < t.packetSize →
      t.fifoCount = k * t.packetSize → t.fifoCount < 65536 → k < fuel →
      drainLoop fuel t = some (drainStep^[k] t) := by
  induction k with
  | zero =>
    intro fuel t hp h _ hf
    obtain ⟨fuel, rfl⟩ : ∃ n, fuel = n + 1 := ⟨fuel - 1, by omega⟩
    have hlt : ¬ t.fifoCount ≥ t.packetSize := by
      rw [h]; simp; omega
    simp [drainLoop, hlt]
  | succ k ih =>
    intro fuel t hp h hlt hf
    obtain ⟨fuel, rfl⟩ : ∃ n, fuel = n + 1 := ⟨fuel - 1, by omega⟩
    have hge : t.fifoCount ≥ t.packetSize := by
      rw [h, Nat.succ_mul]; omega
    have hstep : (drainStep t).fifoCount = k * t.packetSize := by
      have := drainStep_iterate_count 1 k t (by rw [h]; ring) hlt
      simpa using this
    have hps : (drainStep t).packetSize = t.packetSize := rfl
    rw [drainLoop, if_pos hge, if_neg (by omega), Function.iterate_succ_apply]
    apply ih fuel (drainStep t) (by rw [hps]; exact hp) (by rw [hstep, hps])
      (by rw [hstep]; rw [h, Nat.succ_mul] at hlt; omega) (by omega)

/-- The opening of the pull: the flag is cleared, then the count is read; nothing
else changes. -/
theorem pollCount_spec (t : MPU6050Libized α) :
    (pollCount t).mpuInterrupt = false
      ∧ (pollCount t).fifoCount = t.mpu.dev.getFIFOCount t.mpu.polls % 65536
      ∧ (pollCount t).packetSize = t.packetSize
      ∧ (pollCount t).ypr = t.ypr
      ∧ (pollCount t).q = t.q
      ∧ (pollCount t).fifoBuffer = t.fifoBuffer
      ∧ (pollCount t).mpu.dev = t.mpu.dev
      ∧ (pollCount t).mpu.fifoPos = t.mpu.fifoPos
      ∧ (pollCount t).mpu.trace = t.mpu.trace ++ [Op.storeMpuInterrupt false, Op.getFIFOCount] := by
  simp [pollCount, MPU6050.getFIFOCount, MPU6050.log]

/-- The recovery branch: status read, FIFO reset, status read; the cached
orientation is returned and kept. -/
theorem recoverFIFO_spec (t : MPU6050Libized α) :
    (recoverFIFO t).2 = { yaw := t.ypr.1, pitch := t.ypr.2.1, roll := t.ypr.2.2 }
      ∧ (recoverFIFO t).1.mpuInterrupt = t.mpuInterrupt
      ∧ (recoverFIFO t).1.ypr = t.ypr
      ∧ (recoverFIFO t).1.fifoBuffer = t.fifoBuffer
      ∧ (recoverFIFO t).1.mpu.fifoPos = t.mpu.fifoPos
      ∧ (recoverFIFO t).1.mpu.trace
          = t.mpu.trace ++ [Op.getIntStatus, Op.resetFIFO, Op.getIntStatus] := by
  simp [recoverFIFO, MPU6050.getIntStatus, MPU6050.log]

/-- The decode block: the quaternion is decoded from the buffer as it stands, and
with a local count of `0` the device is not touched. -/
theorem decodePacket_spec [LinearOrderedField α] (m : MathLib α) (t : MPU6050Libized α)
    (h0 : t.fifoCount = 0) :
    (decodePacket m t).1.mpu = t.mpu
      ∧ (decodePacket m t).1.mpuInterrupt = t.mpuInterrupt
      ∧ (decodePacket m t).1.fifoBuffer = t.fifoBuffer
      ∧ (decodePacket m t).1.q = (dmpGetQuaternion t.mpu t.q (some t.fifoBuffer)).2 := by
  simp [decodePacket, dmpGetGravity, h0]

/-- C1: with `packetSize = 42`, if the byte count `c` reported by the device is
not a multiple of 42, or exceeds `20 * 42`, or is below 42, then `getYawPitchRoll`
returns the cached `(ypr[0], ypr[1], ypr[2])`, leaves the cached triple as it
was, consumes no FIFO byte, and its effects are exactly: the flag store, the
count read, one interrupt-status read, one `resetFIFO`, one interrupt-status
read. -/
theorem getYawPitchRoll_corrupt [LinearOrderedField α] (m : MathLib α) (t : MPU6050Libized α) (c : Nat)
    (hps : t.packetSize = 42)
    (hc : t.mpu.dev.getFIFOCount t.mpu.polls % 65536 = c)
    (hbad : c % 42 ≠ 0 ∨ c > 20 * 42 ∨ c < 42) :
    ∃ t', getYawPitchRoll m t
          = some (t', { yaw := t.ypr.1, pitch := t.ypr.2.1, roll := t.ypr.2.2 })
      ∧ t'.ypr = t.ypr
      ∧ t'.fifoBuffer = t.fifoBuffer
      ∧ t'.mpu.fifoPos = t.mpu.fifoPos
      ∧ t'.mpu.trace = t.mpu.trace ++ [Op.storeMpuInterrupt false, Op.getFIFOCount,
          Op.getIntStatus, Op.resetFIFO, Op.getIntStatus] := by
  have hcond : c % 42 ≠ 0 ∨ c > 42 * maxPackets % 65536 ∨ c < 42 := by
    simpa [maxPackets] using hbad
  obtain ⟨_, hcount, hsize, hypr, _, hbuf, _, hpos, htr⟩ := pollCount_spec t
  obtain ⟨hret, _, hypr', hbuf', hpos', htr'⟩ := recoverFIFO_spec (pollCount t)
  rw [hc] at hcount
  rw [hps] at hsize
  refine ⟨(recoverFIFO (pollCount t)).1, ?_, hypr'.trans hypr, hbuf'.trans hbuf,
    hpos'.trans hpos, ?_⟩
  · simp only [getYawPitchRoll, hcount, hsize]
    rw [if_neg (by decide), if_pos hcond, ← hypr, ← hret]
  · rw [htr', htr]; simp

theorem getYawPitchRoll_corrupt_witness :
    ∃ t', getYawPitchRoll realMath (readyTracker ℝ silentDevice)
          = some (t', { yaw := (readyTracker ℝ silentDevice).ypr.1,
                        pitch := (readyTracker ℝ silentDevice).ypr.2.1,
                        roll := (readyTracker ℝ silentDevice).ypr.2.2 })
      ∧ t'.ypr = (readyTracker ℝ silentDevice).ypr
      ∧ t'.fifoBuffer = (readyTracker ℝ silentDevice).fifoBuffer
      ∧ t'.mpu.fifoPos = (readyTracker ℝ silentDevice).mpu.fifoPos
      ∧ t'.mpu.trace = (readyTracker ℝ silentDevice).mpu.trace ++ [Op.storeMpuInterrupt false,
          Op.getFIFOCount, Op.getIntStatus, Op.resetFIFO, Op.getIntStatus] :=
  getYawPitchRoll_corrupt realMath (readyTracker ℝ silentDevice) 0 rfl rfl (by decide)

/-- On a clean count of `k ≥ 1` packets the pull runs the drain loop body `k`
times and decodes what is in the buffer then. -/
theorem pull_drains_then_decodes [LinearOrderedField α] (m : MathLib α) (t : MPU6050Libized α)
    (k : Nat) (hp : 0 < t.packetSize) (hk : 1 ≤ k)
    (hc : t.mpu.dev.getFIFOCount t.mpu.polls % 65536 = k * t.packetSize)
    (hmax : k * t.packetSize ≤ (t.packetSize * maxPackets) % 65536) :
    getYawPitchRoll m t = some (decodePacket m (drainStep^[k] (pollCount t))) := by
  obtain ⟨_, hcount, hsize, _⟩ := pollCount_spec t
  rw [hc] at hcount
  have hlt : k * t.packetSize < 65536 := by
    rw [← hc]; exact Nat.mod_lt _ (by decide)
  have hge : t.packetSize ≤ k * t.packetSize := Nat.le_mul_of_pos_left _ hk
  have hloop := drainLoop_terminates k (k * t.packetSize + 1) (pollCount t)
    (by rw [hsize]; exact hp) (by rw [hcount, hsize]) (by rw [hcount]; exact hlt)
    (by nlinarith [hp, hk])
  simp only [getYawPitchRoll, hcount, hsize]
  rw [if_neg (by omega), if_neg (by simp [Nat.mul_mod_left]; omega), hloop]

/-- C2: with `packetSize = 42`, on a reported count `c` that is a multiple of 42
with `42 ≤ c ≤ 20 * 42`, the pull returns after exactly `c / 42` calls of
`getFIFOBytes`, each for 42 bytes (`c` bytes consumed in all, no other device
access after the count read), and the buffer handed to `dmpGetQuaternion`
starts with the 42 bytes of the packet read last, the `(c / 42)`-th one. -/
theorem getYawPitchRoll_drains_to_last [LinearOrderedField α] (m : MathLib α)
    (t : MPU6050Libized α) (c : Nat)
    (hps : t.packetSize = 42)
    (hc : t.mpu.dev.getFIFOCount t.mpu.polls % 65536 = c)
    (hmod : c % 42 = 0) (hlo : 42 ≤ c) (hhi : c ≤ 20 * 42) :
    ∃ t' r, getYawPitchRoll m t = some (t', r)
      ∧ t'.mpu.trace = t.mpu.trace ++ [Op.storeMpuInterrupt false, Op.getFIFOCount]
          ++ List.replicate (c / 42) (Op.getFIFOBytes 42)
      ∧ t'.mpu.fifoPos = t.mpu.fifoPos + c
      ∧ t'.fifoBuffer
          = fifoBytes t.mpu.dev (t.mpu.fifoPos + (c / 42 - 1) * 42) 42 ++ t.fifoBuffer.drop 42
      ∧ t'.q = (dmpGetQuaternion t'.mpu t.q
          (some (fifoBytes t.mpu.dev (t.mpu.fifoPos + (c / 42 - 1) * 42) 42
            ++ t.fifoBuffer.drop 42))).2 := by
  obtain ⟨k, rfl⟩ : ∃ k, c = (k + 1) * 42 := ⟨c / 42 - 1, by omega⟩
  have hk : (k + 1) * 42 / 42 = k + 1 := by omega
  have hk' : (k + 1) * 42 / 42 - 1 = k := by omega
  obtain ⟨_, hcount, hsize, _, hq, hfb, hdev, hpos, htr⟩ := pollCount_spec t
  rw [hc] at hcount
  rw [hps] at hsize
  have heq := pull_drains_then_decodes m t (k + 1) (by omega) (by omega) (by rw [hps]; exact hc)
    (by rw [hps]; simp [maxPackets]; omega)
  have hzero : (drainStep^[k + 1] (pollCount t)).fifoCount = 0 := by
    have := drainStep_iterate_count (k + 1) 0 (pollCount t) (by rw [hcount, hsize])
      (by rw [hcount]; omega)
    simpa using this
  have hbuf := drainStep_iterate_buffer k (pollCount t)
  have heff := drainStep_iterate_effects (k + 1) (pollCount t)
  have hfr := drainStep_iterate_frame (k + 1) (pollCount t)
  obtain ⟨dmpu, _, dbuf, dq⟩ := decodePacket_spec m (drainStep^[k + 1] (pollCount t)) hzero
  rw [hsize, hdev, hpos, hfb] at hbuf
  rw [hsize, htr, hpos] at heff
  refine ⟨(decodePacket m (drainStep^[k + 1] (pollCount t))).1,
    (decodePacket m (drainStep^[k + 1] (pollCount t))).2, heq, ?_, ?_, ?_, ?_⟩
  · rw [dmpu, hk]; exact heff.1
  · rw [dmpu, heff.2]
  · rw [dbuf, hk', hbuf]
  · rw [dq, dmpu, hk', hbuf, hfr.2.2.1, hq]

theorem getYawPitchRoll_drains_to_last_witness :
    ∃ t' r, getYawPitchRoll realMath (readyTracker ℝ countingDevice) = some (t', r)
      ∧ t'.mpu.trace = (readyTracker ℝ countingDevice).mpu.trace
          ++ [Op.storeMpuInterrupt false, Op.getFIFOCount]
          ++ List.replicate (84 / 42) (Op.getFIFOBytes 42)
      ∧ t'.mpu.fifoPos = (readyTracker ℝ countingDevice).mpu.fifoPos + 84
      ∧ t'.fifoBuffer
          = fifoBytes (readyTracker ℝ countingDevice).mpu.dev
              ((readyTracker ℝ countingDevice).mpu.fifoPos + (84 / 42 - 1) * 42) 42
            ++ (readyTracker ℝ countingDevice).fifoBuffer.drop 42
      ∧ t'.q = (dmpGetQuaternion t'.mpu (readyTracker ℝ countingDevice).q
          (some (fifoBytes (readyTracker ℝ countingDevice).mpu.dev
              ((readyTracker ℝ countingDevice).mpu.fifoPos + (84 / 42 - 1) * 42) 42
            ++ (readyTracker ℝ countingDevice).fifoBuffer.drop 42))).2 :=
  getYawPitchRoll_drains_to_last realMath (readyTracker ℝ countingDevice) 84 rfl rfl
    (by decide) (by decide) (by decide)

/-- On a corrupt count the pull takes the recovery branch. -/
theorem pull_takes_recovery_branch [LinearOrderedField α] (m : MathLib α) (t : MPU6050Libized α)
    (hp : t.packetSize ≠ 0)
    (hbad : (pollCount t).fifoCount % t.packetSize ≠ 0
      ∨ (pollCount t).fifoCount > (t.packetSize * maxPackets) % 65536
      ∨ (pollCount t).fifoCount < t.packetSize) :
    getYawPitchRoll m t = some (recoverFIFO (pollCount t)) := by
  have hsize : (pollCount t).packetSize = t.packetSize := (pollCount_spec t).2.2.1
  simp only [getYawPitchRoll, hsize]
  rw [if_neg hp, if_pos hbad]

theorem dmpDataReady_iterate (n : Nat) (t : MPU6050Libized α) :
    dmpDataReady^[n + 1] t = dmpDataReady t := by
  induction n with
  | zero => rfl
  | succ n ih => rw [Function.iterate_succ_apply']; rw [ih]; rfl

/-- C10: `checkMPUDataAvailable` returns the flag and changes nothing;
`dmpDataReady` sets the flag and changes nothing else; whenever `packetSize` is
not `0`, `getYawPitchRoll` returns, its first effect is the store of `false` to
the flag, directly followed by the count read and by no further store to the
flag, so the flag is `false` afterwards and `checkMPUDataAvailable` then returns
`false`; and `n + 1` calls of `dmpDataReady` leave the same state as one. -/
theorem interrupt_flag_protocol [LinearOrderedField α] (m : MathLib α) (t : MPU6050Libized α)
    (n : Nat) (hp : t.packetSize ≠ 0) :
    checkMPUDataAvailable t = (t.mpuInterrupt, t)
      ∧ dmpDataReady t = { t with mpuInterrupt := true }
      ∧ (∃ t' r rest, getYawPitchRoll m t = some (t', r)
          ∧ t'.mpuInterrupt = false
          ∧ checkMPUDataAvailable t' = (false, t')
          ∧ t'.mpu.trace
              = t.mpu.trace ++ Op.storeMpuInterrupt false :: Op.getFIFOCount :: rest
          ∧ ∀ v, Op.storeMpuInterrupt v ∉ rest)
      ∧ dmpDataReady^[n + 1] t = dmpDataReady t := by
  refine ⟨rfl, rfl, ?_, dmpDataReady_iterate n t⟩
  obtain ⟨hflag, hcount, hsize, _, _, _, _, _, htr⟩ := pollCount_spec t
  by_cases hbad : (pollCount t).fifoCount % t.packetSize ≠ 0
      ∨ (pollCount t).fifoCount > (t.packetSize * maxPackets) % 65536
      ∨ (pollCount t).fifoCount < t.packetSize
  · obtain ⟨_, rflag, _, _, _, rtr⟩ := recoverFIFO_spec (pollCount t)
    have hf : (recoverFIFO (pollCount t)).1.mpuInterrupt = false := rflag.trans hflag
    refine ⟨(recoverFIFO (pollCount t)).1, (recoverFIFO (pollCount t)).2,
      [Op.getIntStatus, Op.resetFIFO, Op.getIntStatus],
      pull_takes_recovery_branch m t hp hbad, hf, ?_, ?_, ?_⟩
    · simp only [checkMPUDataAvailable, hf]
    · rw [rtr, htr]; simp
    · intro v hv; simp at hv
  · have hclean : (pollCount t).fifoCount % t.packetSize = 0
        ∧ (pollCount t).fifoCount ≤ (t.packetSize * maxPackets) % 65536
        ∧ t.packetSize ≤ (pollCount t).fifoCount := by
      refine ⟨?_, ?_, ?_⟩ <;> by_contra hcon <;> apply hbad
      · exact Or.inl hcon
      · exact Or.inr (Or.inl (by omega))
      · exact Or.inr (Or.inr (by omega))
    obtain ⟨k, hk⟩ : ∃ k, (pollCount t).fifoCount = k * t.packetSize :=
      ⟨(pollCount t).fifoCount / t.packetSize, (Nat.div_mul_cancel
        (Nat.dvd_of_mod_eq_zero hclean.1)).symm⟩
    have hpos : 0 < t.packetSize := Nat.pos_of_ne_zero hp
    have hk1 : 1 ≤ k := by
      rcases Nat.eq_zero_or_pos k with h0 | h0
      · rw [h0, Nat.zero_mul] at hk; omega
      · exact h0
    have heq := pull_drains_then_decodes m t k hpos hk1 (by rw [← hcount, hk])
      (by rw [← hk]; exact hclean.2.1)
    have hzero : (drainStep^[k] (pollCount t)).fifoCount = 0 := by
      have := drainStep_iterate_count k 0 (pollCount t) (by rw [hk, hsize]; simp)
        (by rw [hcount]; exact Nat.mod_lt _ (by decide))
      simpa using this
    obtain ⟨dmpu, dflag, _, _⟩ := decodePacket_spec m (drainStep^[k] (pollCount t)) hzero
    have hfr := drainStep_iterate_frame k (pollCount t)
    have heff := drainStep_iterate_effects k (pollCount t)
    have hf : (decodePacket m (drainStep^[k] (pollCount t))).1.mpuInterrupt = false := by
      rw [dflag, hfr.2.1, hflag]
    refine ⟨(decodePacket m (drainStep^[k] (pollCount t))).1,
      (decodePacket m (drainStep^[k] (pollCount t))).2,
      List.replicate k (Op.getFIFOBytes (pollCount t).packetSize), heq, hf, ?_, ?_, ?_⟩
    · simp only [checkMPUDataAvailable, hf]
    · rw [dmpu, heff.1, htr]; simp
    · intro v hv
      have := (List.mem_replicate.mp hv).2
      cases this

theorem interrupt_flag_protocol_witness :
    checkMPUDataAvailable (readyTracker ℝ silentDevice)
        = ((readyTracker ℝ silentDevice).mpuInterrupt, readyTracker ℝ silentDevice)
      ∧ dmpDataReady (readyTracker ℝ silentDevice)
        = { readyTracker ℝ silentDevice with mpuInterrupt := true }
      ∧ (∃ t' r rest, getYawPitchRoll realMath (readyTracker ℝ silentDevice) = some (t', r)
          ∧ t'.mpuInterrupt = false
          ∧ checkMPUDataAvailable t' = (false, t')
          ∧ t'.mpu.trace = (readyTracker ℝ silentDevice).mpu.trace
              ++ Op.storeMpuInterrupt false :: Op.getFIFOCount :: rest
          ∧ ∀ v, Op.storeMpuInterrupt v ∉ rest)
      ∧ dmpDataReady^[3 + 1] (readyTracker ℝ silentDevice)
        = dmpDataReady (readyTracker ℝ silentDevice) :=
  interrupt_flag_protocol realMath (readyTracker ℝ silentDevice) 3 (by decide)

end Pull

/-! ## DMP bring-up: `dmpInitialize` -/

/-- The status, the calls and the state change of `dmpInitialize`, by whether the
device verifies the firmware upload. -/
theorem dmpInitialize_spec (b : Build) (mpu : MPU6050) :
    (dmpInitialize b mpu).1 = (if mpu.dev.writeProgMemoryBlock mpu.uploads then 0 else 1)
      ∧ (dmpInitialize b mpu).2.trace
          = mpu.trace ++ bringUpOps b
            ++ (if mpu.dev.writeProgMemoryBlock mpu.uploads then configOps b else [])
      ∧ (dmpInitialize b mpu).2.dmpPacketSize
          = (if mpu.dev.writeProgMemoryBlock mpu.uploads then 42 else mpu.dmpPacketSize)
      ∧ (dmpInitialize b mpu).2.blockWrites
          = (if mpu.dev.writeProgMemoryBlock mpu.uploads then mpu.blockWrites + 1
              else mpu.blockWrites)
      ∧ (dmpInitialize b mpu).2.statusReads
          = (if mpu.dev.writeProgMemoryBlock mpu.uploads then mpu.statusReads + 1
              else mpu.statusReads)
      ∧ (dmpInitialize b mpu).2.dev = mpu.dev := by
  cases hD : b.DEBUG <;> cases hL : mpu.dev.writeProgMemoryBlock mpu.uploads <;>
    simp [dmpInitialize, bringUpOps, configOps, MPU6050.log, MPU6050.writeProgMemoryBlock,
      MPU6050.writeMemoryBlock, MPU6050.getIntStatus, hD, hL]

/-- The status `dmpInitialize` computes: `1` exactly when the firmware upload
reports failure, and then its calls end with the upload (no FIFO-rate write, no
DMP config write, no OTP clear, no threshold write, no FIFO enable, no DMP
reset, no status read) and `dmpPacketSize` is not assigned; otherwise `0`, with
the later calls made and `dmpPacketSize` set to `42`.  What the configuration
calls report does not enter the status, so it is never `2`. -/
theorem dmpInitialize_upload_status (b : Build) (mpu : MPU6050) :
    ((dmpInitialize b mpu).1 = 1 ↔ mpu.dev.writeProgMemoryBlock mpu.uploads = false)
      ∧ ((dmpInitialize b mpu).1 = 0 ↔ mpu.dev.writeProgMemoryBlock mpu.uploads = true)
      ∧ (dmpInitialize b mpu).1 ≠ 2
      ∧ (dmpInitialize b mpu).2.trace
          = mpu.trace ++ bringUpOps b
            ++ (if mpu.dev.writeProgMemoryBlock mpu.uploads then configOps b else [])
      ∧ (dmpInitialize b mpu).2.dmpPacketSize
          = (if mpu.dev.writeProgMemoryBlock mpu.uploads then 42 else mpu.dmpPacketSize)
      ∧ (dmpInitialize b mpu).2.blockWrites
          = (if mpu.dev.writeProgMemoryBlock mpu.uploads then mpu.blockWrites + 1
              else mpu.blockWrites)
      ∧ (dmpInitialize b mpu).2.statusReads
          = (if mpu.dev.writeProgMemoryBlock mpu.uploads then mpu.statusReads + 1
              else mpu.statusReads) := by
  obtain ⟨h1, h2, h3, h4, h5, _⟩ := dmpInitialize_spec b mpu
  refine ⟨?_, ?_, ?_, h2, h3, h4, h5⟩ <;> rw [h1] <;>
    cases mpu.dev.writeProgMemoryBlock mpu.uploads <;> simp

/-! ## Set-up: `init` -/

section Init

variable {α : Type}

theorem busSetup_spec (b : Build) (mpu : MPU6050) :
    (busSetup b mpu).trace = mpu.trace ++ busSetupOps b
      ∧ (busSetup b mpu).dev = mpu.dev
      ∧ (busSetup b mpu).probes = mpu.probes := by
  unfold busSetup busSetupOps
  cases b.I2CDEV_IMPLEMENTATION <;> simp [MPU6050.log]

theorem mem_probeOps (k : Nat) (op : Op) (h : op ∈ probeOps k) :
    op = Op.testConnection ∨ op = Op.delay 500 := by
  induction k with
  | zero => simp [probeOps] at h; exact Or.inl h
  | succ k ih =>
    simp only [probeOps, List.mem_cons] at h
    rcases h with h | h | h
    · exact Or.inl h
    · exact Or.inr h
    · exact ih h

/-- The connection loop leaves normally at the first probe that succeeds,
provided it comes before the failure counter reaches its limit. -/
theorem connectLoop_connects (k : Nat) :
    ∀ (fuel counter : Nat) (mpu : MPU6050), k < fuel → counter + k ≤ 5 →
      (∀ i, i < k → mpu.dev.testConnection (mpu.probes + i) = false) →
      mpu.dev.testConnection (mpu.probes + k) = true →
      ∃ mpu0, connectLoop fuel counter mpu = some (true, mpu0)
        ∧ mpu0.trace = mpu.trace ++ probeOps k
        ∧ mpu0.dev = mpu.dev
        ∧ mpu0.probes = mpu.probes + k + 1 := by
  induction k with
  | zero =>
    intro fuel counter mpu hf _ _ hok
    obtain ⟨fuel, rfl⟩ : ∃ n, fuel = n + 1 := ⟨fuel - 1, by omega⟩
    have hok' : mpu.dev.testConnection mpu.probes = true := by simpa using hok
    refine ⟨(mpu.testConnection).2, ?_, rfl, rfl, rfl⟩
    simp [connectLoop, MPU6050.testConnection, hok']
  | succ k ih =>
    intro fuel counter mpu hf hcnt hfail hok
    obtain ⟨fuel, rfl⟩ : ∃ n, fuel = n + 1 := ⟨fuel - 1, by omega⟩
    have h0 : mpu.dev.testConnection mpu.probes = false := by
      simpa using hfail 0 (by omega)
    have hmod : (counter + 1) % 256 = counter + 1 := Nat.mod_eq_of_lt (by omega)
    obtain ⟨mpu0, hloop, htr, hdev, hpr⟩ := ih fuel (counter + 1)
      ((mpu.testConnection).2.log (Op.delay 500)) (by omega) (by omega)
      (by
        intro i hi
        have := hfail (i + 1) (by omega)
        show mpu.dev.testConnection (mpu.probes + 1 + i) = false
        rw [Nat.add_assoc, Nat.add_comm 1 i]; exact this)
      (by
        show mpu.dev.testConnection (mpu.probes + 1 + k) = true
        rw [Nat.add_assoc, Nat.add_comm 1 k]; exact hok)
    refine ⟨mpu0, ?_, ?_, hdev, ?_⟩
    · rw [← hloop]
      simp [connectLoop, MPU6050.testConnection, h0, hmod]
      omega
    · rw [htr]; simp [MPU6050.testConnection, MPU6050.log, probeOps]
    · rw [hpr]; show mpu.probes + 1 + k + 1 = _; omega

/-- The connection loop gives up at the sixth failed probe. -/
theorem connectLoop_gives_up (mpu : MPU6050)
    (hfail : ∀ k, k < 6 → mpu.dev.testConnection (mpu.probes + k) = false) :
    ∃ mpu0, connectLoop 6 0 mpu = some (false, mpu0)
      ∧ mpu0.trace = mpu.trace ++ [Op.testConnection, Op.delay 500, Op.testConnection,
          Op.delay 500, Op.testConnection, Op.delay 500, Op.testConnection, Op.delay 500,
          Op.testConnection, Op.delay 500, Op.testConnection]
      ∧ mpu0.uploads = mpu.uploads
      ∧ mpu0.dmpPacketSize = mpu.dmpPacketSize := by
  have h0 : mpu.dev.testConnection mpu.probes = false := by simpa using hfail 0 (by omega)
  have h1 := hfail 1 (by omega)
  have h2 := hfail 2 (by omega)
  have h3 := hfail 3 (by omega)
  have h4 := hfail 4 (by omega)
  have h5 := hfail 5 (by omega)
  simp [connectLoop, MPU6050.testConnection, MPU6050.log, h0, h1, h2, h3, h4, h5, Nat.add_assoc]

/-- Some probe among the first six succeeds: then the loop leaves normally, after
`k ≤ 5` failed probes. -/
theorem connectLoop_of_some_success (mpu : MPU6050)
    (hconn : ∃ k, k < 6 ∧ mpu.dev.testConnection (mpu.probes + k) = true) :
    ∃ k mpu0, k < 6 ∧ connectLoop 6 0 mpu = some (true, mpu0)
      ∧ mpu0.trace = mpu.trace ++ probeOps k
      ∧ mpu0.dev = mpu.dev := by
  classical
  have hex : ∃ k, k < 6 ∧ mpu.dev.testConnection (mpu.probes + k) = true := hconn
  have hlt := (Nat.find_spec hex).1
  have hok := (Nat.find_spec hex).2
  have hmin : ∀ i, i < Nat.find hex → mpu.dev.testConnection (mpu.probes + i) = false := by
    intro i hi
    have := Nat.find_min hex hi
    have hi6 : i < 6 := by omega
    cases hv : mpu.dev.testConnection (mpu.probes + i)
    · rfl
    · exact absurd ⟨hi6, hv⟩ this
  obtain ⟨mpu0, hloop, htr, hdev, _⟩ := connectLoop_connects (Nat.find hex) 6 0 mpu hlt
    (by omega) hmin hok
  exact ⟨Nat.find hex, mpu0, hlt, hloop, htr, hdev⟩

/-- What `init` does once the connection loop has been left normally with the
device object `mpu0`. -/
theorem init_of_connected [LinearOrderedField α] (b : Build) (t : MPU6050Libized α)
    (xa ya za xg yg zg : Int) (mpu0 : MPU6050)
    (h : connectLoop 6 0 ((busSetup b t.mpu).log Op.mpuInitialize) = some (true, mpu0)) :
    ∃ t', init b t xa ya za xg yg zg = some (decide ((dmpInitialize b mpu0).1 = 0), t')
      ∧ t'.mpu.trace = (dmpInitialize b mpu0).2.trace ++ offsetOps xa ya za xg yg zg
          ++ (if (dmpInitialize b mpu0).1 = 0 then
                [Op.setDMPEnabled true,
                  Op.attachInterrupt (b.digitalPinToInterrupt t._interrupPin) ISR.dmpDataReady
                    EdgeMode.FALLING,
                  Op.getIntStatus]
              else [])
      ∧ t'.packetSize = (if (dmpInitialize b mpu0).1 = 0 then (dmpInitialize b mpu0).2.dmpPacketSize
          else t.packetSize)
      ∧ t'.ypr = t.ypr
      ∧ t'.mpuInterrupt = t.mpuInterrupt := by
  simp only [init, h]
  by_cases hs : (dmpInitialize b mpu0).1 = 0
  · simp [hs, MPU6050.log, MPU6050.getIntStatus, dmpGetFIFOPacketSize, offsetOps]
  · simp [hs, MPU6050.log, offsetOps]

theorem startsDMP_busSetupOps (b : Build) (op : Op) (h : op ∈ busSetupOps b) :
    op.startsDMP = false := by
  unfold busSetupOps at h
  cases hI : b.I2CDEV_IMPLEMENTATION <;> rw [hI] at h <;> simp at h
  · rcases h with h | h <;> rw [h] <;> rfl
  · rw [h]; rfl

theorem startsDMP_probeOps (k : Nat) (op : Op) (h : op ∈ probeOps k) : op.startsDMP = false := by
  rcases mem_probeOps k op h with h | h <;> rw [h] <;> rfl

theorem startsDMP_bringUpOps (b : Build) (op : Op) (h : op ∈ bringUpOps b) :
    op.startsDMP = false := by
  unfold bringUpOps at h
  cases hD : b.DEBUG <;> rw [hD] at h <;> simp at h <;>
    rcases h with h | h | h | h | h | h | h | h | h | h | h | h | h | h | h | h | h | h | h
      <;> first
        | (rw [h]; rfl)
        | (rcases h with h | h <;> rw [h] <;> rfl)

theorem startsDMP_offsetOps (xa ya za xg yg zg : Int) (op : Op)
    (h : op ∈ offsetOps xa ya za xg yg zg) : op.startsDMP = false := by
  simp [offsetOps] at h
  rcases h with h | h | h | h | h | h <;> rw [h] <;> rfl

/-- C7: if the first six connection probes all fail, `init` returns `false` and
its calls are exactly the bus set-up, `mpu.initialize()`, six probes and five
delays of 500 ms between them (so no call of `dmpInitialize`, no firmware upload,
no offset write, no `setDMPEnabled`, no `attachInterrupt`); if one of the first
six probes succeeds, `init` returns and the calls of `dmpInitialize`, up to the
firmware upload, directly follow the successful probe. -/
theorem init_connection_probe [LinearOrderedField α] (b : Build) (t : MPU6050Libized α)
    (xa ya za xg yg zg : Int) :
    ((∀ k, k < 6 → t.mpu.dev.testConnection (t.mpu.probes + k) = false) →
      ∃ t', init b t xa ya za xg yg zg = some (false, t')
        ∧ t'.mpu.trace = t.mpu.trace ++ busSetupOps b
            ++ [Op.mpuInitialize, Op.testConnection, Op.delay 500, Op.testConnection,
              Op.delay 500, Op.testConnection, Op.delay 500, Op.testConnection, Op.delay 500,
              Op.testConnection, Op.delay 500, Op.testConnection]
        ∧ t'.mpu.uploads = t.mpu.uploads)
      ∧ ((∃ k, k < 6 ∧ t.mpu.dev.testConnection (t.mpu.probes + k) = true) →
        ∃ k mpu0 ok t' rest, k < 6
          ∧ connectLoop 6 0 ((busSetup b t.mpu).log Op.mpuInitialize) = some (true, mpu0)
          ∧ mpu0.trace = t.mpu.trace ++ busSetupOps b ++ [Op.mpuInitialize] ++ probeOps k
          ∧ init b t xa ya za xg yg zg = some (ok, t')
          ∧ t'.mpu.trace = mpu0.trace ++ bringUpOps b ++ rest) := by
  obtain ⟨btr, bdev, bpr⟩ := busSetup_spec b t.mpu
  have hdev : ((busSetup b t.mpu).log Op.mpuInitialize).dev = t.mpu.dev := bdev
  have hpr : ((busSetup b t.mpu).log Op.mpuInitialize).probes = t.mpu.probes := bpr
  have htr : ((busSetup b t.mpu).log Op.mpuInitialize).trace
      = t.mpu.trace ++ busSetupOps b ++ [Op.mpuInitialize] := by
    show (busSetup b t.mpu).trace ++ [Op.mpuInitialize] = _
    rw [btr]
  constructor
  · intro hfail
    obtain ⟨mpu0, hloop, htr0, hup, _⟩ :=
      connectLoop_gives_up ((busSetup b t.mpu).log Op.mpuInitialize)
        (by rw [hdev, hpr]; exact hfail)
    refine ⟨{ t with mpu := mpu0 }, ?_, ?_, ?_⟩
    · simp only [init, hloop]
    · show mpu0.trace = _
      rw [htr0, htr]; simp
    · show mpu0.uploads = _
      rw [hup]
      unfold busSetup
      cases b.I2CDEV_IMPLEMENTATION <;> rfl
  · intro hconn
    obtain ⟨k, mpu0, hk, hloop, htr0, _⟩ :=
      connectLoop_of_some_success ((busSetup b t.mpu).log Op.mpuInitialize)
        (by rw [hdev, hpr]; exact hconn)
    obtain ⟨t', hinit, htr', _⟩ := init_of_connected b t xa ya za xg yg zg mpu0 hloop
    refine ⟨k, mpu0, decide ((dmpInitialize b mpu0).1 = 0), t',
      (if mpu0.dev.writeProgMemoryBlock mpu0.uploads then configOps b else [])
        ++ (offsetOps xa ya za xg yg zg
          ++ (if (dmpInitialize b mpu0).1 = 0 then
                [Op.setDMPEnabled true,
                  Op.attachInterrupt (b.digitalPinToInterrupt t._interrupPin) ISR.dmpDataReady
                    EdgeMode.FALLING,
                  Op.getIntStatus]
              else [])),
      hk, hloop, by rw [htr0, htr], hinit, ?_⟩
    rw [htr', (dmpInitialize_spec b mpu0).2.1, List.append_assoc, List.append_assoc]

theorem init_connection_probe_witness :
    (∃ t', init stockBuild (readyTracker ℝ silentDevice) 0 0 0 0 0 0 = some (false, t')
        ∧ t'.mpu.trace = (readyTracker ℝ silentDevice).mpu.trace ++ busSetupOps stockBuild
            ++ [Op.mpuInitialize, Op.testConnection, Op.delay 500, Op.testConnection,
              Op.delay 500, Op.testConnection, Op.delay 500, Op.testConnection, Op.delay 500,
              Op.testConnection, Op.delay 500, Op.testConnection]
        ∧ t'.mpu.uploads = (readyTracker ℝ silentDevice).mpu.uploads)
      ∧ (∃ k mpu0 ok t' rest, k < 6
          ∧ connectLoop 6 0 ((busSetup stockBuild (readyTracker ℝ uploadFailDevice).mpu).log
              Op.mpuInitialize) = some (true, mpu0)
          ∧ mpu0.trace = (readyTracker ℝ uploadFailDevice).mpu.trace ++ busSetupOps stockBuild
              ++ [Op.mpuInitialize] ++ probeOps k
          ∧ init stockBuild (readyTracker ℝ uploadFailDevice) 0 0 0 0 0 0 = some (ok, t')
          ∧ t'.mpu.trace = mpu0.trace ++ bringUpOps stockBuild ++ rest) :=
  ⟨(init_connection_probe stockBuild (readyTracker ℝ silentDevice) 0 0 0 0 0 0).1
      (fun _ _ => rfl),
    (init_connection_probe stockBuild (readyTracker ℝ uploadFailDevice) 0 0 0 0 0 0).2
      ⟨2, by decide, rfl⟩⟩

/-- C8: when one of the first six connection probes succeeds, `init` returns
`true` exactly when `dmpInitialize` returns status `0`.  When it returns `true`
its last calls are `setDMPEnabled(true)`, `attachInterrupt` of `dmpDataReady` on
the `FALLING` edge of the configured pin and a status read, and `packetSize` is
`42`.  When it returns `false` the firmware upload has failed, and none of the
calls of `init` is `setDMPEnabled(true)` or `attachInterrupt`. -/
theorem init_returns_dmp_status [LinearOrderedField α] (b : Build) (t : MPU6050Libized α)
    (xa ya za xg yg zg : Int)
    (hconn : ∃ k, k < 6 ∧ t.mpu.dev.testConnection (t.mpu.probes + k) = true) :
    ∃ mpu0 ok t' issued,
      connectLoop 6 0 ((busSetup b t.mpu).log Op.mpuInitialize) = some (true, mpu0)
        ∧ init b t xa ya za xg yg zg = some (ok, t')
        ∧ (ok = true ↔ (dmpInitialize b mpu0).1 = 0)
        ∧ t'.mpu.trace = t.mpu.trace ++ issued
        ∧ (ok = true →
            (∃ before, issued = before ++ [Op.setDMPEnabled true,
                Op.attachInterrupt (b.digitalPinToInterrupt t._interrupPin) ISR.dmpDataReady
                  EdgeMode.FALLING,
                Op.getIntStatus])
              ∧ t'.packetSize = 42)
        ∧ (ok = false →
            mpu0.dev.writeProgMemoryBlock mpu0.uploads = false
              ∧ Op.setDMPEnabled true ∉ issued
              ∧ ∀ n isr mode, Op.attachInterrupt n isr mode ∉ issued) := by
  obtain ⟨btr, bdev, bpr⟩ := busSetup_spec b t.mpu
  have hdev : ((busSetup b t.mpu).log Op.mpuInitialize).dev = t.mpu.dev := bdev
  have hpr : ((busSetup b t.mpu).log Op.mpuInitialize).probes = t.mpu.probes := bpr
  have htr : ((busSetup b t.mpu).log Op.mpuInitialize).trace
      = t.mpu.trace ++ (busSetupOps b ++ [Op.mpuInitialize]) := by
    show (busSetup b t.mpu).trace ++ [Op.mpuInitialize] = _
    rw [btr, List.append_assoc]
  obtain ⟨k, mpu0, _, hloop, htr0, _⟩ :=
    connectLoop_of_some_success ((busSetup b t.mpu).log Op.mpuInitialize)
      (by rw [hdev, hpr]; exact hconn)
  obtain ⟨t', hinit, htr', hps, _⟩ := init_of_connected b t xa ya za xg yg zg mpu0 hloop
  obtain ⟨dstat, dtr, dps, _⟩ := dmpInitialize_spec b mpu0
  cases hL : mpu0.dev.writeProgMemoryBlock mpu0.uploads
  · -- the upload failed
    rw [hL] at dstat dtr
    have hs : (dmpInitialize b mpu0).1 = 1 := by simpa using dstat
    have hne : ¬ (dmpInitialize b mpu0).1 = 0 := by rw [hs]; decide
    rw [if_neg hne, List.append_nil, dtr, htr0, htr] at htr'
    have hissued : ∀ op, op ∈ busSetupOps b ++ [Op.mpuInitialize] ++ probeOps k ++ bringUpOps b
        ++ offsetOps xa ya za xg yg zg → op.startsDMP = false := by
      intro op hop
      simp only [List.mem_append, List.mem_singleton] at hop
      rcases hop with (((hop | hop) | hop) | hop) | hop
      · exact startsDMP_busSetupOps b op hop
      · rw [hop]; rfl
      · exact startsDMP_probeOps k op hop
      · exact startsDMP_bringUpOps b op hop
      · exact startsDMP_offsetOps xa ya za xg yg zg op hop
    refine ⟨mpu0, false, t', busSetupOps b ++ [Op.mpuInitialize] ++ probeOps k ++ bringUpOps b
      ++ offsetOps xa ya za xg yg zg, hloop, ?_, ?_, ?_, ?_, ?_⟩
    · rw [hinit]; simp [hne]
    · simp [hne]
    · rw [htr']; simp
    · intro h; cases h
    · intro _
      refine ⟨hL, ?_, ?_⟩
      · intro hmem
        have := hissued _ hmem
        cases this
      · intro n isr mode hmem
        have := hissued _ hmem
        cases this
  · -- the upload verified
    rw [hL] at dstat dtr dps
    have hs : (dmpInitialize b mpu0).1 = 0 := by simpa using dstat
    rw [if_pos hs, dtr, htr0, htr] at htr'
    rw [if_pos hs, dps] at hps
    refine ⟨mpu0, true, t', busSetupOps b ++ [Op.mpuInitialize] ++ probeOps k ++ bringUpOps b
      ++ configOps b ++ offsetOps xa ya za xg yg zg ++ [Op.setDMPEnabled true,
        Op.attachInterrupt (b.digitalPinToInterrupt t._interrupPin) ISR.dmpDataReady
          EdgeMode.FALLING,
        Op.getIntStatus], hloop, ?_, ?_, ?_, ?_, ?_⟩
    · rw [hinit]; simp [hs]
    · simp [hs]
    · rw [htr']; simp
    · intro _
      exact ⟨⟨_, rfl⟩, by simpa using hps⟩
    · intro h; cases h

theorem init_returns_dmp_status_witness :
    ∃ mpu0 ok t' issued,
      connectLoop 6 0 ((busSetup stockBuild (readyTracker ℝ uploadFailDevice).mpu).log
          Op.mpuInitialize) = some (true, mpu0)
        ∧ init stockBuild (readyTracker ℝ uploadFailDevice) 1 2 3 4 5 6 = some (ok, t')
        ∧ (ok = true ↔ (dmpInitialize stockBuild mpu0).1 = 0)
        ∧ t'.mpu.trace = (readyTracker ℝ uploadFailDevice).mpu.trace ++ issued
        ∧ (ok = true →
            (∃ before, issued = before ++ [Op.setDMPEnabled true,
                Op.attachInterrupt
                  (stockBuild.digitalPinToInterrupt (readyTracker ℝ uploadFailDevice)._interrupPin)
                  ISR.dmpDataReady EdgeMode.FALLING,
                Op.getIntStatus])
              ∧ t'.packetSize = 42)
        ∧ (ok = false →
            mpu0.dev.writeProgMemoryBlock mpu0.uploads = false
              ∧ Op.setDMPEnabled true ∉ issued
              ∧ ∀ n isr mode, Op.attachInterrupt n isr mode ∉ issued) :=
  init_returns_dmp_status stockBuild (readyTracker ℝ uploadFailDevice) 1 2 3 4 5 6
    ⟨2, by decide, rfl⟩

end Init

/-! ## Further properties of the decode functions -/

/-- C12: the yaw output `data[0]` is `atan2(2xy - 2wz, 2ww + 2xx - 1)` for every
gravity vector, so it does not depend on gravity; and for `gz ≥ 0` the outputs
are exactly `(yaw, atan2(gx, sqrt(gy*gy + gz*gz)), atan2(gy, gz))`, status `0`. -/
theorem dmpGetYawPitchRoll_yaw {α : Type} [LinearOrderedField α] (m : MathLib α)
    (data : α × α × α) (q : Quaternion α) (gravity : VectorFloat α) (hgz : 0 ≤ gravity.z) :
    (∀ g : VectorFloat α, (dmpGetYawPitchRoll m data q g).2.1
        = m.atan2 (2 * q.x * q.y - 2 * q.w * q.z) (2 * q.w * q.w + 2 * q.x * q.x - 1))
      ∧ dmpGetYawPitchRoll m data q gravity
        = (0, (m.atan2 (2 * q.x * q.y - 2 * q.w * q.z) (2 * q.w * q.w + 2 * q.x * q.x - 1),
               m.atan2 gravity.x (m.sqrt (gravity.y * gravity.y + gravity.z * gravity.z)),
               m.atan2 gravity.y gravity.z)) := by
  refine ⟨fun _ => rfl, ?_⟩
  simp only [dmpGetYawPitchRoll]
  rw [if_neg (not_lt.mpr hgz)]

theorem dmpGetYawPitchRoll_yaw_witness :
    (∀ g : VectorFloat ℝ, (dmpGetYawPitchRoll realMath (0, 0, 0) ⟨1, 0, 0, 0⟩ g).2.1
        = realMath.atan2 (2 * (0 : ℝ) * 0 - 2 * 1 * 0) (2 * (1 : ℝ) * 1 + 2 * 0 * 0 - 1))
      ∧ dmpGetYawPitchRoll realMath (0, 0, 0) ⟨1, 0, 0, 0⟩ ⟨0, 0, 1⟩
        = (0, (realMath.atan2 (2 * (0 : ℝ) * 0 - 2 * 1 * 0) (2 * (1 : ℝ) * 1 + 2 * 0 * 0 - 1),
               realMath.atan2 (0 : ℝ) (realMath.sqrt ((0 : ℝ) * 0 + 1 * 1)),
               realMath.atan2 (0 : ℝ) 1)) :=
  dmpGetYawPitchRoll_yaw realMath (0, 0, 0) ⟨1, 0, 0, 0⟩ ⟨0, 0, 1⟩ (zero_le_one : (0 : ℝ) ≤ 1)

/-- C13: over the reals, for every quaternion, every `gx` and every `gy ≠ 0`, the
roll output of `dmpGetYawPitchRoll` is continuous in `gz` at `gz = 0`: its limits
from the negative and from the positive side both equal its value at `0`. -/
theorem roll_continuous_at_zero (data : ℝ × ℝ × ℝ) (q : Quaternion ℝ) (gx gy : ℝ)
    (hgy : gy ≠ 0) :
    ContinuousAt (fun gz : ℝ => (dmpGetYawPitchRoll realMath data q ⟨gx, gy, gz⟩).2.2.2) 0
      ∧ Filter.Tendsto (fun gz : ℝ => (dmpGetYawPitchRoll realMath data q ⟨gx, gy, gz⟩).2.2.2)
          (nhdsWithin 0 (Set.Iio 0))
          (nhds (dmpGetYawPitchRoll realMath data q ⟨gx, gy, 0⟩).2.2.2)
      ∧ Filter.Tendsto (fun gz : ℝ => (dmpGetYawPitchRoll realMath data q ⟨gx, gy, gz⟩).2.2.2)
          (nhdsWithin 0 (Set.Ioi 0))
          (nhds (dmpGetYawPitchRoll realMath data q ⟨gx, gy, 0⟩).2.2.2) := by
  have hfun : (fun gz : ℝ => (dmpGetYawPitchRoll realMath data q ⟨gx, gy, gz⟩).2.2.2)
      = fun gz : ℝ => Complex.arg ((gz : ℂ) + (gy : ℂ) * Complex.I) := by
    funext gz
    show Complex.arg ⟨gz, gy⟩ = _
    congr 1
    apply Complex.ext <;> simp
  have hslit : ((0 : ℝ) : ℂ) + (gy : ℂ) * Complex.I ∈ Complex.slitPlane := by
    rw [Complex.mem_slitPlane_iff]
    right
    simpa using hgy
  have hpath : Continuous (fun gz : ℝ => (gz : ℂ) + (gy : ℂ) * Complex.I) := by
    exact (Complex.continuous_ofReal).add continuous_const
  have hcont : ContinuousAt
      (fun gz : ℝ => (dmpGetYawPitchRoll realMath data q ⟨gx, gy, gz⟩).2.2.2) 0 := by
    rw [hfun]
    exact ContinuousAt.comp (f := fun gz : ℝ => (gz : ℂ) + (gy : ℂ) * Complex.I)
      (Complex.continuousAt_arg hslit) hpath.continuousAt
  exact ⟨hcont, hcont.tendsto.mono_left nhdsWithin_le_nhds,
    hcont.tendsto.mono_left nhdsWithin_le_nhds⟩

theorem roll_continuous_at_zero_witness :
    ContinuousAt
        (fun gz : ℝ => (dmpGetYawPitchRoll realMath (0, 0, 0) ⟨1, 0, 0, 0⟩ ⟨0, 1, gz⟩).2.2.2) 0
      ∧ Filter.Tendsto
          (fun gz : ℝ => (dmpGetYawPitchRoll realMath (0, 0, 0) ⟨1, 0, 0, 0⟩ ⟨0, 1, gz⟩).2.2.2)
          (nhdsWithin 0 (Set.Iio 0))
          (nhds (dmpGetYawPitchRoll realMath (0, 0, 0) ⟨1, 0, 0, 0⟩ ⟨0, 1, 0⟩).2.2.2)
      ∧ Filter.Tendsto
          (fun gz : ℝ => (dmpGetYawPitchRoll realMath (0, 0, 0) ⟨1, 0, 0, 0⟩ ⟨0, 1, gz⟩).2.2.2)
          (nhdsWithin 0 (Set.Ioi 0))
          (nhds (dmpGetYawPitchRoll realMath (0, 0, 0) ⟨1, 0, 0, 0⟩ ⟨0, 1, 0⟩).2.2.2) :=
  roll_continuous_at_zero (0, 0, 0) ⟨1, 0, 0, 0⟩ 0 1 one_ne_zero

/-- C19: the gravity vector of `dmpGetGravity` satisfies
`gx^2 + gy^2 + gz^2 = (w^2 + x^2 + y^2 + z^2)^2`; for a unit quaternion its
squared norm is `1` and each component lies in `[-1, 1]`. -/
theorem dmpGetGravity_norm {α : Type} [LinearOrderedField α] (v : VectorFloat α)
    (q : Quaternion α) (hunit : q.w ^ 2 + q.x ^ 2 + q.y ^ 2 + q.z ^ 2 = 1) :
    (∀ (v' : VectorFloat α) (p : Quaternion α),
        (dmpGetGravity v' p).2.1.x ^ 2 + (dmpGetGravity v' p).2.1.y ^ 2
          + (dmpGetGravity v' p).2.1.z ^ 2 = (p.w ^ 2 + p.x ^ 2 + p.y ^ 2 + p.z ^ 2) ^ 2)
      ∧ (dmpGetGravity v q).2.1.x ^ 2 + (dmpGetGravity v q).2.1.y ^ 2
          + (dmpGetGravity v q).2.1.z ^ 2 = 1
      ∧ (-1 ≤ (dmpGetGravity v q).2.1.x ∧ (dmpGetGravity v q).2.1.x ≤ 1)
      ∧ (-1 ≤ (dmpGetGravity v q).2.1.y ∧ (dmpGetGravity v q).2.1.y ≤ 1)
      ∧ (-1 ≤ (dmpGetGravity v q).2.1.z ∧ (dmpGetGravity v q).2.1.z ≤ 1) := by
  have hid : ∀ (v' : VectorFloat α) (p : Quaternion α),
      (dmpGetGravity v' p).2.1.x ^ 2 + (dmpGetGravity v' p).2.1.y ^ 2
        + (dmpGetGravity v' p).2.1.z ^ 2 = (p.w ^ 2 + p.x ^ 2 + p.y ^ 2 + p.z ^ 2) ^ 2 := by
    intro v' p
    simp only [dmpGetGravity]
    ring
  have hone : (dmpGetGravity v q).2.1.x ^ 2 + (dmpGetGravity v q).2.1.y ^ 2
      + (dmpGetGravity v q).2.1.z ^ 2 = 1 := by
    rw [hid, hunit]; norm_num
  have hx := sq_nonneg (dmpGetGravity v q).2.1.x
  have hy := sq_nonneg (dmpGetGravity v q).2.1.y
  have hz := sq_nonneg (dmpGetGravity v q).2.1.z
  refine ⟨hid, hone, ?_, ?_, ?_⟩
  · exact abs_le.mp (abs_le_one_iff_mul_self_le_one.mpr (by nlinarith))
  · exact abs_le.mp (abs_le_one_iff_mul_self_le_one.mpr (by nlinarith))
  · exact abs_le.mp (abs_le_one_iff_mul_self_le_one.mpr (by nlinarith))

theorem dmpGetGravity_norm_witness :
    (∀ (v' : VectorFloat ℚ) (p : Quaternion ℚ),
        (dmpGetGravity v' p).2.1.x ^ 2 + (dmpGetGravity v' p).2.1.y ^ 2
          + (dmpGetGravity v' p).2.1.z ^ 2 = (p.w ^ 2 + p.x ^ 2 + p.y ^ 2 + p.z ^ 2) ^ 2)
      ∧ (dmpGetGravity (⟨0, 0, 0⟩ : VectorFloat ℚ) ⟨3 / 5, 0, 4 / 5, 0⟩).2.1.x ^ 2
          + (dmpGetGravity (⟨0, 0, 0⟩ : VectorFloat ℚ) ⟨3 / 5, 0, 4 / 5, 0⟩).2.1.y ^ 2
          + (dmpGetGravity (⟨0, 0, 0⟩ : VectorFloat ℚ) ⟨3 / 5, 0, 4 / 5, 0⟩).2.1.z ^ 2 = 1
      ∧ (-1 ≤ (dmpGetGravity (⟨0, 0, 0⟩ : VectorFloat ℚ) ⟨3 / 5, 0, 4 / 5, 0⟩).2.1.x
          ∧ (dmpGetGravity (⟨0, 0, 0⟩ : VectorFloat ℚ) ⟨3 / 5, 0, 4 / 5, 0⟩).2.1.x ≤ 1)
      ∧ (-1 ≤ (dmpGetGravity (⟨0, 0, 0⟩ : VectorFloat ℚ) ⟨3 / 5, 0, 4 / 5, 0⟩).2.1.y
          ∧ (dmpGetGravity (⟨0, 0, 0⟩ : VectorFloat ℚ) ⟨3 / 5, 0, 4 / 5, 0⟩).2.1.y ≤ 1)
      ∧ (-1 ≤ (dmpGetGravity (⟨0, 0, 0⟩ : VectorFloat ℚ) ⟨3 / 5, 0, 4 / 5, 0⟩).2.1.z
          ∧ (dmpGetGravity (⟨0, 0, 0⟩ : VectorFloat ℚ) ⟨3 / 5, 0, 4 / 5, 0⟩).2.1.z ≤ 1) :=
  dmpGetGravity_norm ⟨0, 0, 0⟩ ⟨3 / 5, 0, 4 / 5, 0⟩ (by norm_num)

theorem toInt16_bounds (n : Nat) : -32768 ≤ toInt16 n ∧ toInt16 n ≤ 32767 := by
  unfold toInt16
  split <;> omega

theorem fixed_point_bounds {α : Type} [LinearOrderedField α] (v : Int) (hlo : -32768 ≤ v)
    (hhi : v ≤ 32767) : -2 ≤ (v : α) / 16384 ∧ (v : α) / 16384 ≤ 2 - 1 / 16384 := by
  have h1 : ((-32768 : Int) : α) ≤ (v : α) := Int.cast_le.mpr hlo
  have h2 : (v : α) ≤ ((32767 : Int) : α) := Int.cast_le.mpr hhi
  push_cast at h1 h2
  have h3 : (v : α) = 16384 * ((v : α) / 16384) := by field_simp
  constructor
  · linarith
  · have h4 : (16384 : α) * (2 - 1 / 16384) = 32767 := by norm_num
    have h5 : (16384 : α) * ((v : α) / 16384) ≤ 16384 * (2 - 1 / 16384) := by
      rw [← h3, h4]; exact h2
    exact le_of_mul_le_mul_left h5 (by norm_num)

/-- C20: two packets that agree on the bytes at offsets 0, 1, 4, 5, 8, 9, 12, 13
decode to the same status and quaternion, whatever their other bytes and whatever
the device object; and every decoded component lies in `[-2, 2 - 1/16384]`. -/
theorem dmpGetQuaternion_reads_eight_bytes {α : Type} [LinearOrderedField α]
    (mpu mpu' : MPU6050) (q0 : Quaternion α) (p p' : List Nat)
    (h0 : byteAt p 0 = byteAt p' 0) (h1 : byteAt p 1 = byteAt p' 1)
    (h4 : byteAt p 4 = byteAt p' 4) (h5 : byteAt p 5 = byteAt p' 5)
    (h8 : byteAt p 8 = byteAt p' 8) (h9 : byteAt p 9 = byteAt p' 9)
    (h12 : byteAt p 12 = byteAt p' 12) (h13 : byteAt p 13 = byteAt p' 13) :
    dmpGetQuaternion mpu q0 (some p) = dmpGetQuaternion mpu' q0 (some p')
      ∧ (-2 ≤ (dmpGetQuaternion mpu q0 (some p)).2.w
          ∧ (dmpGetQuaternion mpu q0 (some p)).2.w ≤ 2 - 1 / 16384)
      ∧ (-2 ≤ (dmpGetQuaternion mpu q0 (some p)).2.x
          ∧ (dmpGetQuaternion mpu q0 (some p)).2.x ≤ 2 - 1 / 16384)
      ∧ (-2 ≤ (dmpGetQuaternion mpu q0 (some p)).2.y
          ∧ (dmpGetQuaternion mpu q0 (some p)).2.y ≤ 2 - 1 / 16384)
      ∧ (-2 ≤ (dmpGetQuaternion mpu q0 (some p)).2.z
          ∧ (dmpGetQuaternion mpu q0 (some p)).2.z ≤ 2 - 1 / 16384) := by
  refine ⟨?_, ?_, ?_, ?_, ?_⟩
  · simp only [dmpGetQuaternion, dmpGetQuaternion_int16, h0, h1, h4, h5, h8, h9, h12, h13]
  · exact fixed_point_bounds _ (toInt16_bounds _).1 (toInt16_bounds _).2
  · exact fixed_point_bounds _ (toInt16_bounds _).1 (toInt16_bounds _).2
  · exact fixed_point_bounds _ (toInt16_bounds _).1 (toInt16_bounds _).2
  · exact fixed_point_bounds _ (toInt16_bounds _).1 (toInt16_bounds _).2

theorem dmpGetQuaternion_reads_eight_bytes_witness :
    dmpGetQuaternion (freshMPU silentDevice) (⟨0, 0, 0, 0⟩ : Quaternion ℚ) (some samplePacket)
        = dmpGetQuaternion (freshMPU countingDevice) ⟨0, 0, 0, 0⟩ (some samplePacketVariant)
      ∧ (-2 ≤ (dmpGetQuaternion (freshMPU silentDevice) (⟨0, 0, 0, 0⟩ : Quaternion ℚ)
            (some samplePacket)).2.w
          ∧ (dmpGetQuaternion (freshMPU silentDevice) (⟨0, 0, 0, 0⟩ : Quaternion ℚ)
            (some samplePacket)).2.w ≤ 2 - 1 / 16384)
      ∧ (-2 ≤ (dmpGetQuaternion (freshMPU silentDevice) (⟨0, 0, 0, 0⟩ : Quaternion ℚ)
            (some samplePacket)).2.x
          ∧ (dmpGetQuaternion (freshMPU silentDevice) (⟨0, 0, 0, 0⟩ : Quaternion ℚ)
            (some samplePacket)).2.x ≤ 2 - 1 / 16384)
      ∧ (-2 ≤ (dmpGetQuaternion (freshMPU silentDevice) (⟨0, 0, 0, 0⟩ : Quaternion ℚ)
            (some samplePacket)).2.y
          ∧ (dmpGetQuaternion (freshMPU silentDevice) (⟨0, 0, 0, 0⟩ : Quaternion ℚ)
            (some samplePacket)).2.y ≤ 2 - 1 / 16384)
      ∧ (-2 ≤ (dmpGetQuaternion (freshMPU silentDevice) (⟨0, 0, 0, 0⟩ : Quaternion ℚ)
            (some samplePacket)).2.z
          ∧ (dmpGetQuaternion (freshMPU silentDevice) (⟨0, 0, 0, 0⟩ : Quaternion ℚ)
            (some samplePacket)).2.z ≤ 2 - 1 / 16384) :=
  dmpGetQuaternion_reads_eight_bytes (freshMPU silentDevice) (freshMPU countingDevice)
    ⟨0, 0, 0, 0⟩ samplePacket samplePacketVariant (by decide) (by decide) (by decide)
    (by decide) (by decide) (by decide) (by decide) (by decide)

/-! ## The overflow threshold -/

/-- C18 fails as stated: `22` packets still leave two packets of headroom in a
buffer of `24`, so `maxPackets = 20` is not the largest such count, and `20`
packets leave `4` packets of headroom, not `2`. -/
theorem headroom_counterexample :
    22 + 2 ≤ fifoCapacityPackets ∧ maxPackets < 22
      ∧ fifoCapacityPackets - maxPackets ≠ 2
      ∧ fifoCapacityPackets * 42 - maxPackets * 42 ≠ 2 * 42 := by
  decide

/-- C18 (amended): with a packet size of `42` and a hardware buffer of `24`
packets, `maxPackets` is `20`, the accepted maximum is `20 * 42 = 840` bytes (the
product does not wrap in 16 bits), and accepting up to `840` bytes leaves exactly
`4` packets (`168` bytes) of the buffer free, which is at least the `2` packets of
the comment; the largest count that leaves `2` packets free is `22`. -/
theorem maxPackets_headroom :
    maxPackets = 20
      ∧ (42 * maxPackets) % 65536 = 840
      ∧ maxPackets + 2 ≤ fifoCapacityPackets
      ∧ fifoCapacityPackets - maxPackets = 4
      ∧ fifoCapacityPackets * 42 - maxPackets * 42 = 168
      ∧ ∀ n : Nat, n + 2 ≤ fifoCapacityPackets ↔ n ≤ 22 := by
  refine ⟨rfl, by decide, by decide, by decide, by decide, ?_⟩
  intro n
  unfold fifoCapacityPackets
  omega

/-! ## The clean path of the pull -/

section CleanPath

variable {α : Type}

/-- What the decode block computes and caches. -/
theorem decodePacket_result [LinearOrderedField α] (m : MathLib α) (t : MPU6050Libized α) :
    (decodePacket m t).1.ypr
        = (dmpGetYawPitchRoll m t.ypr (dmpGetQuaternion t.mpu t.q (some t.fifoBuffer)).2
            (dmpGetGravity t.gravity (dmpGetQuaternion t.mpu t.q (some t.fifoBuffer)).2).2.1).2
      ∧ (decodePacket m t).1.ypr
        = ((decodePacket m t).2.yaw, (decodePacket m t).2.pitch, (decodePacket m t).2.roll)
      ∧ (decodePacket m t).1.gravity
        = (dmpGetGravity t.gravity (dmpGetQuaternion t.mpu t.q (some t.fifoBuffer)).2).2.1
      ∧ (decodePacket m t).1.fifoCount = t.fifoCount
      ∧ (decodePacket m t).1.mpu.statusReads = t.mpu.statusReads := by
  refine ⟨rfl, rfl, rfl, rfl, ?_⟩
  simp only [decodePacket]
  split <;> rfl

theorem pollCount_frame (t : MPU6050Libized α) :
    (pollCount t).gravity = t.gravity
      ∧ (pollCount t).mpu.statusReads = t.mpu.statusReads := by
  simp [pollCount, MPU6050.getFIFOCount, MPU6050.log]

theorem dmpGetQuaternion_any_device [LinearOrderedField α] (mpu mpu' : MPU6050)
    (q0 : Quaternion α) (p : List Nat) :
    dmpGetQuaternion mpu q0 (some p) = dmpGetQuaternion mpu' q0 (some p) := by
  simp only [dmpGetQuaternion, dmpGetQuaternion_int16]

theorem byteAt_fifoBytes (dev : Device) (pos length i : Nat) (rest : List Nat)
    (hi : i < length) :
    byteAt (fifoBytes dev pos length ++ rest) i = dev.fifoByte (pos + i) % 256 := by
  unfold byteAt fifoBytes
  rw [List.getD_eq_getElem?_getD, List.getElem?_append_left (by simpa using hi)]
  simp [hi]

/-- The result of the pull on a clean count of `k + 1` packets of `42` bytes. -/
theorem pull_clean_result [LinearOrderedField α] (m : MathLib α) (t : MPU6050Libized α)
    (k : Nat) (hps : t.packetSize = 42)
    (hc : t.mpu.dev.getFIFOCount t.mpu.polls % 65536 = (k + 1) * 42) (hhi : k + 1 ≤ 20) :
    ∃ t' r q g, getYawPitchRoll m t = some (t', r)
      ∧ q = (dmpGetQuaternion t.mpu t.q
          (some (fifoBytes t.mpu.dev (t.mpu.fifoPos + k * 42) 42 ++ t.fifoBuffer.drop 42))).2
      ∧ g = (dmpGetGravity t.gravity q).2.1
      ∧ (dmpGetYawPitchRoll m t.ypr q g).2 = (r.yaw, r.pitch, r.roll)
      ∧ t'.ypr = (r.yaw, r.pitch, r.roll)
      ∧ t'.q = q
      ∧ t'.gravity = g
      ∧ t'.fifoCount = 0
      ∧ t'.mpu.statusReads = t.mpu.statusReads
      ∧ t'.mpu.trace = t.mpu.trace ++ [Op.storeMpuInterrupt false, Op.getFIFOCount]
          ++ List.replicate (k + 1) (Op.getFIFOBytes 42) := by
  obtain ⟨_, hcount, hsize, hypr, hq, hfb, hdev, hpos, htr⟩ := pollCount_spec t
  obtain ⟨hgr, hsr⟩ := pollCount_frame t
  rw [hc] at hcount
  rw [hps] at hsize
  have heq := pull_drains_then_decodes m t (k + 1) (by omega) (by omega) (by rw [hps]; exact hc)
    (by rw [hps]; simp [maxPackets]; omega)
  have hzero : (drainStep^[k + 1] (pollCount t)).fifoCount = 0 := by
    have := drainStep_iterate_count (k + 1) 0 (pollCount t) (by rw [hcount, hsize])
      (by rw [hcount]; omega)
    simpa using this
  have hbuf := drainStep_iterate_buffer k (pollCount t)
  have heff := drainStep_iterate_effects (k + 1) (pollCount t)
  obtain ⟨_, _, fq, fg, fypr, _, _, fsr⟩ := drainStep_iterate_frame (k + 1) (pollCount t)
  obtain ⟨dmpu, _, _, dq⟩ := decodePacket_spec m (drainStep^[k + 1] (pollCount t)) hzero
  obtain ⟨rypr, rret, rgr, rcount, rsr⟩ := decodePacket_result m (drainStep^[k + 1] (pollCount t))
  rw [hsize, hdev, hpos, hfb] at hbuf
  rw [hsize, htr] at heff
  have hQ : (dmpGetQuaternion (drainStep^[k + 1] (pollCount t)).mpu
      (drainStep^[k + 1] (pollCount t)).q (some (drainStep^[k + 1] (pollCount t)).fifoBuffer)).2
      = (dmpGetQuaternion t.mpu t.q
          (some (fifoBytes t.mpu.dev (t.mpu.fifoPos + k * 42) 42 ++ t.fifoBuffer.drop 42))).2 := by
    rw [hbuf, fq, hq, dmpGetQuaternion_any_device _ t.mpu]
  refine ⟨(decodePacket m (drainStep^[k + 1] (pollCount t))).1,
    (decodePacket m (drainStep^[k + 1] (pollCount t))).2, _, _, heq, rfl, rfl, ?_, rret, ?_, ?_,
    ?_, ?_, ?_⟩
  · rw [← rret, rypr, hQ, fg, hgr, fypr, hypr]
  · rw [dq, hQ]
  · rw [rgr, hQ, fg, hgr]
  · rw [rcount, hzero]
  · rw [rsr, fsr, hsr]
  · rw [dmpu]; exact heff.1

theorem quaternion_of_identity_bytes [LinearOrderedField α] (mpu : MPU6050) (q0 : Quaternion α)
    (p : List Nat) (h0 : byteAt p 0 = 0x40) (h1 : byteAt p 1 = 0) (h4 : byteAt p 4 = 0)
    (h5 : byteAt p 5 = 0) (h8 : byteAt p 8 = 0) (h9 : byteAt p 9 = 0) (h12 : byteAt p 12 = 0)
    (h13 : byteAt p 13 = 0) :
    (dmpGetQuaternion mpu q0 (some p)).2 = ⟨1, 0, 0, 0⟩ := by
  have e1 : toInt16 ((0x40 <<< 8) ||| 0) = 16384 := by decide
  have e0 : toInt16 ((0 <<< 8) ||| 0) = 0 := by decide
  simp only [dmpGetQuaternion, dmpGetQuaternion_int16, h0, h1, h4, h5, h8, h9, h12, h13, e1, e0,
    if_true]
  norm_num

theorem gravity_of_identity [LinearOrderedField α] (v : VectorFloat α) :
    (dmpGetGravity v (⟨1, 0, 0, 0⟩ : Quaternion α)).2.1 = ⟨0, 0, 1⟩ := by
  simp [dmpGetGravity]

theorem ypr_of_identity_real (data : ℝ × ℝ × ℝ) :
    (dmpGetYawPitchRoll realMath data ⟨1, 0, 0, 0⟩ ⟨0, 0, 1⟩).2 = (0, 0, 0) := by
  have hs : realMath.sqrt ((0 : ℝ) * 0 + 1 * 1) = 1 := by
    show Real.sqrt ((0 : ℝ) * 0 + 1 * 1) = 1
    norm_num
  have hy : (2 * (0 : ℝ) * 0 - 2 * 1 * 0) = 0 := by norm_num
  have hx : (2 * (1 : ℝ) * 1 + 2 * 0 * 0 - 1) = 1 := by norm_num
  simp only [dmpGetYawPitchRoll]
  rw [hs, hy, hx, realMath_atan2_zero_one, if_neg (by norm_num)]

/-- C11: with `packetSize = 42`, on a clean count `c` the record returned by
`getYawPitchRoll` is `dmpGetYawPitchRoll(q, g)` for `q` the quaternion decoded
from the packet read last and `g = dmpGetGravity(q)`, and the cached `ypr` is
that same triple; over the reals, a single clean packet holding `0x40, 0x00` at
offsets 0-1 and zero at offsets 4-5, 8-9, 12-13 yields `(0, 0, 0)`. -/
theorem getYawPitchRoll_clean_result [LinearOrderedField α] (m : MathLib α)
    (t : MPU6050Libized α) (c : Nat)
    (hps : t.packetSize = 42)
    (hc : t.mpu.dev.getFIFOCount t.mpu.polls % 65536 = c)
    (hmod : c % 42 = 0) (hlo : 42 ≤ c) (hhi : c ≤ 20 * 42) :
    (∃ t' r q g, getYawPitchRoll m t = some (t', r)
        ∧ q = (dmpGetQuaternion t.mpu t.q
            (some (fifoBytes t.mpu.dev (t.mpu.fifoPos + (c / 42 - 1) * 42) 42
              ++ t.fifoBuffer.drop 42))).2
        ∧ g = (dmpGetGravity t.gravity q).2.1
        ∧ (dmpGetYawPitchRoll m t.ypr q g).2 = (r.yaw, r.pitch, r.roll)
        ∧ t'.ypr = (r.yaw, r.pitch, r.roll))
      ∧ (∀ s : MPU6050Libized ℝ, s.packetSize = 42 →
          s.mpu.dev.getFIFOCount s.mpu.polls % 65536 = 42 →
          s.mpu.dev.fifoByte (s.mpu.fifoPos + 0) % 256 = 0x40 →
          s.mpu.dev.fifoByte (s.mpu.fifoPos + 1) % 256 = 0x00 →
          s.mpu.dev.fifoByte (s.mpu.fifoPos + 4) % 256 = 0 →
          s.mpu.dev.fifoByte (s.mpu.fifoPos + 5) % 256 = 0 →
          s.mpu.dev.fifoByte (s.mpu.fifoPos + 8) % 256 = 0 →
          s.mpu.dev.fifoByte (s.mpu.fifoPos + 9) % 256 = 0 →
          s.mpu.dev.fifoByte (s.mpu.fifoPos + 12) % 256 = 0 →
          s.mpu.dev.fifoByte (s.mpu.fifoPos + 13) % 256 = 0 →
          ∃ s', getYawPitchRoll realMath s = some (s', { yaw := 0, pitch := 0, roll := 0 })
            ∧ s'.ypr = (0, 0, 0)) := by
  constructor
  · obtain ⟨k, rfl⟩ : ∃ k, c = (k + 1) * 42 := ⟨c / 42 - 1, by omega⟩
    have hk : (k + 1) * 42 / 42 - 1 = k := by omega
    obtain ⟨t', r, q, g, h1, h2, h3, h4, h5, _⟩ := pull_clean_result m t k hps hc (by omega)
    rw [hk]
    exact ⟨t', r, q, g, h1, h2, h3, h4, h5⟩
  · intro s sps sc b0 b1 b4 b5 b8 b9 b12 b13
    obtain ⟨s', r, q, g, h1, h2, h3, h4, h5, _⟩ :=
      pull_clean_result realMath s 0 sps (by rw [sc]) (by omega)
    have hq : q = ⟨1, 0, 0, 0⟩ := by
      rw [h2]
      apply quaternion_of_identity_bytes
      · rw [byteAt_fifoBytes _ _ _ _ _ (by omega)]; simpa using b0
      · rw [byteAt_fifoBytes _ _ _ _ _ (by omega)]; simpa using b1
      · rw [byteAt_fifoBytes _ _ _ _ _ (by omega)]; simpa using b4
      · rw [byteAt_fifoBytes _ _ _ _ _ (by omega)]; simpa using b5
      · rw [byteAt_fifoBytes _ _ _ _ _ (by omega)]; simpa using b8
      · rw [byteAt_fifoBytes _ _ _ _ _ (by omega)]; simpa using b9
      · rw [byteAt_fifoBytes _ _ _ _ _ (by omega)]; simpa using b12
      · rw [byteAt_fifoBytes _ _ _ _ _ (by omega)]; simpa using b13
    have hg : g = ⟨0, 0, 1⟩ := by rw [h3, hq, gravity_of_identity]
    rw [hq, hg, ypr_of_identity_real] at h4
    have hr : r = { yaw := 0, pitch := 0, roll := 0 } := by
      cases r
      simp only [Prod.mk.injEq] at h4
      obtain ⟨e1, e2, e3⟩ := h4
      rw [← e1, ← e2, ← e3]
    rw [hr] at h1 h5
    exact ⟨s', h1, h5⟩

theorem getYawPitchRoll_clean_result_witness :
    (∃ t' r q g, getYawPitchRoll realMath (readyTracker ℝ countingDevice) = some (t', r)
        ∧ q = (dmpGetQuaternion (readyTracker ℝ countingDevice).mpu
            (readyTracker ℝ countingDevice).q
            (some (fifoBytes (readyTracker ℝ countingDevice).mpu.dev
                ((readyTracker ℝ countingDevice).mpu.fifoPos + (84 / 42 - 1) * 42) 42
              ++ (readyTracker ℝ countingDevice).fifoBuffer.drop 42))).2
        ∧ g = (dmpGetGravity (readyTracker ℝ countingDevice).gravity q).2.1
        ∧ (dmpGetYawPitchRoll realMath (readyTracker ℝ countingDevice).ypr q g).2
            = (r.yaw, r.pitch, r.roll)
        ∧ t'.ypr = (r.yaw, r.pitch, r.roll))
      ∧ (∃ s', getYawPitchRoll realMath (readyTracker ℝ identityDevice)
            = some (s', { yaw := 0, pitch := 0, roll := 0 })
          ∧ s'.ypr = (0, 0, 0)) :=
  ⟨(getYawPitchRoll_clean_result realMath (readyTracker ℝ countingDevice) 84 rfl rfl
      (by decide) (by decide) (by decide)).1,
    (getYawPitchRoll_clean_result realMath (readyTracker ℝ countingDevice) 84 rfl rfl
      (by decide) (by decide) (by decide)).2 (readyTracker ℝ identityDevice) rfl rfl rfl rfl
      rfl rfl rfl rfl rfl rfl⟩

/-- C16: with `packetSize = 42`, on a clean count `c` the local `fifoCount` is `0`
when the pull returns, the calls after the count read are the `c / 42` FIFO reads
and nothing else (no `resetFIFO`, no interrupt-status read), and in every state
the drain loop behaves as the loop without the inner `break`: the test
`fifoCount < packetSize` is never true where it is evaluated. -/
theorem getYawPitchRoll_clean_no_reset [LinearOrderedField α] (m : MathLib α)
    (t : MPU6050Libized α) (c : Nat)
    (hps : t.packetSize = 42)
    (hc : t.mpu.dev.getFIFOCount t.mpu.polls % 65536 = c)
    (hmod : c % 42 = 0) (hlo : 42 ≤ c) (hhi : c ≤ 20 * 42) :
    (∃ t' r issued, getYawPitchRoll m t = some (t', r)
        ∧ t'.fifoCount = 0
        ∧ t'.mpu.trace = t.mpu.trace ++ issued
        ∧ issued = [Op.storeMpuInterrupt false, Op.getFIFOCount]
            ++ List.replicate (c / 42) (Op.getFIFOBytes 42)
        ∧ Op.resetFIFO ∉ issued
        ∧ Op.getIntStatus ∉ issued
        ∧ t'.mpu.statusReads = t.mpu.statusReads)
      ∧ (∀ s : MPU6050Libized α, s.fifoCount ≥ s.packetSize → ¬ s.fifoCount < s.packetSize)
      ∧ (∀ (fuel : Nat) (s : MPU6050Libized α), drainLoop (fuel + 1) s
          = if s.fifoCount ≥ s.packetSize then drainLoop fuel (drainStep s) else some s) := by
  refine ⟨?_, fun s h => by omega, ?_⟩
  · obtain ⟨k, rfl⟩ : ∃ k, c = (k + 1) * 42 := ⟨c / 42 - 1, by omega⟩
    have hk : (k + 1) * 42 / 42 = k + 1 := by omega
    obtain ⟨t', r, _, _, h1, _, _, _, _, _, _, hzero, hsr, htr⟩ :=
      pull_clean_result m t k hps hc (by omega)
    refine ⟨t', r, _, h1, hzero, ?_, rfl, ?_, ?_, hsr⟩
    · rw [htr, hk, List.append_assoc]
    · rw [hk]
      intro hmem
      simp only [List.mem_append, List.mem_cons, List.mem_singleton, List.mem_replicate] at hmem
      rcases hmem with (h | h | h) | h
      · cases h
      · cases h
      · cases h
      · cases h.2
    · rw [hk]
      intro hmem
      simp only [List.mem_append, List.mem_cons, List.mem_singleton, List.mem_replicate] at hmem
      rcases hmem with (h | h | h) | h
      · cases h
      · cases h
      · cases h
      · cases h.2
  · intro fuel s
    rw [drainLoop]
    by_cases h : s.fifoCount ≥ s.packetSize
    · rw [if_pos h, if_pos h, if_neg (by omega)]
    · rw [if_neg h, if_neg h]

theorem getYawPitchRoll_clean_no_reset_witness :
    (∃ t' r issued, getYawPitchRoll realMath (readyTracker ℝ countingDevice) = some (t', r)
        ∧ t'.fifoCount = 0
        ∧ t'.mpu.trace = (readyTracker ℝ countingDevice).mpu.trace ++ issued
        ∧ issued = [Op.storeMpuInterrupt false, Op.getFIFOCount]
            ++ List.replicate (84 / 42) (Op.getFIFOBytes 42)
        ∧ Op.resetFIFO ∉ issued
        ∧ Op.getIntStatus ∉ issued
        ∧ t'.mpu.statusReads = (readyTracker ℝ countingDevice).mpu.statusReads)
      ∧ (∀ s : MPU6050Libized ℝ, s.fifoCount ≥ s.packetSize → ¬ s.fifoCount < s.packetSize)
      ∧ (∀ (fuel : Nat) (s : MPU6050Libized ℝ), drainLoop (fuel + 1) s
          = if s.fifoCount ≥ s.packetSize then drainLoop fuel (drainStep s) else some s) :=
  getYawPitchRoll_clean_no_reset realMath (readyTracker ℝ countingDevice) 84 rfl rfl
    (by decide) (by decide) (by decide)

end CleanPath

/-! ## Polling an empty FIFO -/

section EmptyFIFO

variable {α : Type}

theorem recoverFIFO_frame (t : MPU6050Libized α) :
    (recoverFIFO t).1.packetSize = t.packetSize
      ∧ (recoverFIFO t).1.mpu.dev = t.mpu.dev := by
  simp [recoverFIFO, MPU6050.getIntStatus, MPU6050.log]

/-- One pull against a device that reports a count of `0`. -/
theorem pull_on_empty_fifo [LinearOrderedField α] (m : MathLib α) (t : MPU6050Libized α)
    (hps : t.packetSize = 42) (hc : t.mpu.dev.getFIFOCount t.mpu.polls % 65536 = 0) :
    ∃ t', getYawPitchRoll m t
          = some (t', { yaw := t.ypr.1, pitch := t.ypr.2.1, roll := t.ypr.2.2 })
      ∧ t'.ypr = t.ypr
      ∧ t'.packetSize = 42
      ∧ t'.mpu.dev = t.mpu.dev
      ∧ t'.mpuInterrupt = false
      ∧ t'.mpu.trace = t.mpu.trace ++ [Op.storeMpuInterrupt false, Op.getFIFOCount,
          Op.getIntStatus, Op.resetFIFO, Op.getIntStatus] := by
  obtain ⟨hflag, hcount, hsize, hypr, _, _, hdev, _, htr⟩ := pollCount_spec t
  obtain ⟨hret, rflag, rypr, _, _, rtr⟩ := recoverFIFO_spec (pollCount t)
  obtain ⟨rps, rdev⟩ := recoverFIFO_frame (pollCount t)
  rw [hc] at hcount
  have hbranch := pull_takes_recovery_branch m t (by rw [hps]; decide)
    (Or.inr (Or.inr (by rw [hcount, hps]; decide)))
  refine ⟨(recoverFIFO (pollCount t)).1, ?_, rypr.trans hypr, ?_, rdev.trans hdev,
    rflag.trans hflag, ?_⟩
  · rw [hbranch, ← hypr, ← hret]
  · rw [rps, hsize, hps]
  · rw [rtr, htr]; simp

/-- C15: the constructor leaves the cached orientation at `(0, 0, 0)`; and from
any state with cached orientation `(0, 0, 0)` and `packetSize = 42`, against a
device that reports a FIFO count of `0` on every poll, `n` successive calls of
`getYawPitchRoll` all return `(0, 0, 0)`, the cached orientation is `(0, 0, 0)`
afterwards, none of the calls stores `true` to the interrupt flag, and a flag that
was `false` is still `false`. -/
theorem pollLoop_empty_fifo [LinearOrderedField α] (m : MathLib α) (u : MPU6050Libized α)
    (pin : Nat) (n : Nat) (t : MPU6050Libized α)
    (hypr : t.ypr = (0, 0, 0)) (hps : t.packetSize = 42)
    (hdev : ∀ k, t.mpu.dev.getFIFOCount k % 65536 = 0) :
    (MPU6050Libized.new u pin).ypr = (0, 0, 0)
      ∧ ∃ t' issued, pollLoop m n t
            = some (t', List.replicate n { yaw := 0, pitch := 0, roll := 0 })
          ∧ t'.ypr = (0, 0, 0)
          ∧ t'.mpu.trace = t.mpu.trace ++ issued
          ∧ Op.storeMpuInterrupt true ∉ issued
          ∧ (t.mpuInterrupt = false → t'.mpuInterrupt = false) := by
  refine ⟨rfl, ?_⟩
  induction n generalizing t with
  | zero => exact ⟨t, [], rfl, hypr, by simp, by simp, fun h => h⟩
  | succ n ih =>
    obtain ⟨t1, h1, y1, p1, d1, f1, tr1⟩ := pull_on_empty_fifo m t hps (hdev t.mpu.polls)
    obtain ⟨t2, issued, h2, y2, tr2, hno, hflag⟩ := ih t1 (y1.trans hypr) p1
      (by rw [d1]; exact hdev)
    rw [hypr] at h1
    refine ⟨t2, [Op.storeMpuInterrupt false, Op.getFIFOCount, Op.getIntStatus, Op.resetFIFO,
      Op.getIntStatus] ++ issued, ?_, y2, ?_, ?_, fun _ => hflag f1⟩
    · simp only [pollLoop, h1, h2, List.replicate_succ]
    · rw [tr2, tr1, List.append_assoc]
    · intro hmem
      simp only [List.mem_append, List.mem_cons, List.mem_singleton] at hmem
      rcases hmem with (h | h | h | h | h | h) | h
      · cases h
      · cases h
      · cases h
      · cases h
      · cases h
      · simp at h
      · exact hno h

theorem pollLoop_empty_fifo_witness :
    (MPU6050Libized.new (readyTracker ℝ silentDevice) 2).ypr = (0, 0, 0)
      ∧ ∃ t' issued, pollLoop realMath 3 (MPU6050Libized.new (readyTracker ℝ silentDevice) 2)
            = some (t', List.replicate 3 { yaw := 0, pitch := 0, roll := 0 })
          ∧ t'.ypr = (0, 0, 0)
          ∧ t'.mpu.trace = (MPU6050Libized.new (readyTracker ℝ silentDevice) 2).mpu.trace ++ issued
          ∧ Op.storeMpuInterrupt true ∉ issued
          ∧ ((MPU6050Libized.new (readyTracker ℝ silentDevice) 2).mpuInterrupt = false →
              t'.mpuInterrupt = false) :=
  pollLoop_empty_fifo realMath (readyTracker ℝ silentDevice) 2 3
    (MPU6050Libized.new (readyTracker ℝ silentDevice) 2) rfl rfl (fun _ => rfl)

end EmptyFIFO

/-! ## Offset writes and the order of the bring-up -/

/-- C14 fails as stated: on a device that answers the third probe and whose
firmware upload does not verify, `dmpInitialize` returns `1`, `init` returns
`false`, and the six offset writes are still made, right after `dmpInitialize`. -/
theorem init_offsets_counterexample :
    ∃ mpu0 t',
      connectLoop 6 0 ((busSetup stockBuild (readyTracker ℝ uploadFailDevice).mpu).log
          Op.mpuInitialize) = some (true, mpu0)
        ∧ (dmpInitialize stockBuild mpu0).1 = 1
        ∧ init stockBuild (readyTracker ℝ uploadFailDevice) 1 2 3 4 5 6 = some (false, t')
        ∧ t'.mpu.trace = (dmpInitialize stockBuild mpu0).2.trace
            ++ [Op.setXAccelOffset 1, Op.setYAccelOffset 2, Op.setZAccelOffset 3,
              Op.setXGyroOffset 4, Op.setYGyroOffset 5, Op.setZGyroOffset 6] := by
  obtain ⟨_, mpu0, _, hloop, _, hdev⟩ := connectLoop_of_some_success
    ((busSetup stockBuild (readyTracker ℝ uploadFailDevice).mpu).log Op.mpuInitialize)
    ⟨2, by decide, rfl⟩
  have hd : mpu0.dev = uploadFailDevice := hdev
  have hs : (dmpInitialize stockBuild mpu0).1 = 1 := by
    rw [(dmpInitialize_spec stockBuild mpu0).1, hd]
    rfl
  obtain ⟨t', hinit, htr, _⟩ :=
    init_of_connected stockBuild (readyTracker ℝ uploadFailDevice) 1 2 3 4 5 6 mpu0 hloop
  have hne : ¬ (dmpInitialize stockBuild mpu0).1 = 0 := by rw [hs]; decide
  rw [if_neg hne, List.append_nil] at htr
  refine ⟨mpu0, t', hloop, hs, ?_, htr⟩
  rw [hinit]; simp [hne]

/-- C14 (amended): when one of the first six connection probes succeeds, `init`
makes the six offset writes `setXAccelOffset(xa)`, `setYAccelOffset(ya)`,
`setZAccelOffset(za)`, `setXGyroOffset(xg)`, `setYGyroOffset(yg)`,
`setZGyroOffset(zg)` directly after `dmpInitialize` returns, whatever its status;
only the calls behind them depend on the status. -/
theorem init_offset_writes {α : Type} [LinearOrderedField α] (b : Build) (t : MPU6050Libized α)
    (xa ya za xg yg zg : Int)
    (hconn : ∃ k, k < 6 ∧ t.mpu.dev.testConnection (t.mpu.probes + k) = true) :
    ∃ mpu0 ok t' after,
      connectLoop 6 0 ((busSetup b t.mpu).log Op.mpuInitialize) = some (true, mpu0)
        ∧ init b t xa ya za xg yg zg = some (ok, t')
        ∧ (ok = true ↔ (dmpInitialize b mpu0).1 = 0)
        ∧ t'.mpu.trace = (dmpInitialize b mpu0).2.trace
            ++ [Op.setXAccelOffset xa, Op.setYAccelOffset ya, Op.setZAccelOffset za,
              Op.setXGyroOffset xg, Op.setYGyroOffset yg, Op.setZGyroOffset zg]
            ++ after
        ∧ after = (if (dmpInitialize b mpu0).1 = 0 then
              [Op.setDMPEnabled true,
                Op.attachInterrupt (b.digitalPinToInterrupt t._interrupPin) ISR.dmpDataReady
                  EdgeMode.FALLING,
                Op.getIntStatus]
            else []) := by
  obtain ⟨bdev, bpr⟩ := (busSetup_spec b t.mpu).2
  have hdev : ((busSetup b t.mpu).log Op.mpuInitialize).dev = t.mpu.dev := bdev
  have hpr : ((busSetup b t.mpu).log Op.mpuInitialize).probes = t.mpu.probes := bpr
  obtain ⟨_, mpu0, _, hloop, _, _⟩ :=
    connectLoop_of_some_success ((busSetup b t.mpu).log Op.mpuInitialize)
      (by rw [hdev, hpr]; exact hconn)
  obtain ⟨t', hinit, htr, _⟩ := init_of_connected b t xa ya za xg yg zg mpu0 hloop
  exact ⟨mpu0, decide ((dmpInitialize b mpu0).1 = 0), t', _, hloop, hinit, by simp, htr, rfl⟩

theorem init_offset_writes_witness :
    ∃ mpu0 ok t' after,
      connectLoop 6 0 ((busSetup stockBuild (readyTracker ℝ countingDevice).mpu).log
          Op.mpuInitialize) = some (true, mpu0)
        ∧ init stockBuild (readyTracker ℝ countingDevice) 1 2 3 4 5 6 = some (ok, t')
        ∧ (ok = true ↔ (dmpInitialize stockBuild mpu0).1 = 0)
        ∧ t'.mpu.trace = (dmpInitialize stockBuild mpu0).2.trace
            ++ [Op.setXAccelOffset 1, Op.setYAccelOffset 2, Op.setZAccelOffset 3,
              Op.setXGyroOffset 4, Op.setYGyroOffset 5, Op.setZGyroOffset 6]
            ++ after
        ∧ after = (if (dmpInitialize stockBuild mpu0).1 = 0 then
              [Op.setDMPEnabled true,
                Op.attachInterrupt
                  (stockBuild.digitalPinToInterrupt (readyTracker ℝ countingDevice)._interrupPin)
                  ISR.dmpDataReady EdgeMode.FALLING,
                Op.getIntStatus]
            else []) :=
  init_offset_writes stockBuild (readyTracker ℝ countingDevice) 1 2 3 4 5 6
    ⟨0, by decide, rfl⟩

/-- C17 fails as stated: on the success path of a build without `DEBUG` the
OTP-bank-valid flag is never read, and in no build is it cleared before the
firmware upload; the slave-address write directly follows the bank reset of the
revision read (with `DEBUG`, only the read of the flag stands between them). -/
theorem dmpInitialize_otp_counterexample :
    (dmpInitialize stockBuild (freshMPU countingDevice)).1 = 0
      ∧ Op.getOTPBankValid ∉ (dmpInitialize stockBuild (freshMPU countingDevice)).2.trace
      ∧ (dmpInitialize stockBuild (freshMPU countingDevice)).2.trace.take 8
          = [Op.reset, Op.delay 30, Op.setSleepEnabled false, Op.setMemoryBank 0x10 true true,
              Op.setMemoryStartAddress 0x06, Op.readMemoryByte, Op.setMemoryBank 0 false false,
              Op.setSlaveAddress 0 0x7F]
      ∧ (dmpInitialize { stockBuild with DEBUG := true } (freshMPU countingDevice)).2.trace.take 9
          = [Op.reset, Op.delay 30, Op.setSleepEnabled false, Op.setMemoryBank 0x10 true true,
              Op.setMemoryStartAddress 0x06, Op.readMemoryByte, Op.setMemoryBank 0 false false,
              Op.getOTPBankValid, Op.setSlaveAddress 0 0x7F]
      ∧ (dmpInitialize stockBuild (freshMPU countingDevice)).2.trace.count
          (Op.setOTPBankValid false) = 1
      ∧ (dmpInitialize { stockBuild with DEBUG := true } (freshMPU countingDevice)).2.trace.count
          (Op.setOTPBankValid false) = 1 := by
  decide

/-- C17 (amended): when the firmware upload verifies, `dmpInitialize` returns `0`
and makes exactly these calls, in this order: reset, 30 ms delay; sleep disabled;
revision read at bank `0x10`, address `0x06`, bank reset; in a `DEBUG` build only,
a read of the OTP-bank-valid flag (no clear); slave-0 address `0x7F`, I2C master
disabled, slave-0 address `0x68`, I2C master reset, 20 ms delay; clock source;
interrupt enable; rate divisor `4`; frame sync; DLPF; gyro range; firmware
upload; the two bytes `{0x00, FIFO rate divisor}` at bank `0x02`, offset `0x16`;
DMP config `0x03`, `0x00`; OTP-valid cleared; thresholds and durations `2`,
`156`, `80`, `0`; FIFO enabled; DMP reset; DMP disabled; FIFO reset; status
read.  The packet size is `42`, and `setDMPEnabled(true)` is not among the
calls. -/
theorem dmpInitialize_success_sequence (b : Build) (mpu : MPU6050)
    (hok : mpu.dev.writeProgMemoryBlock mpu.uploads = true) :
    ∃ issued, (dmpInitialize b mpu).1 = 0
      ∧ (dmpInitialize b mpu).2.trace = mpu.trace ++ issued
      ∧ issued =
          [Op.reset, Op.delay 30, Op.setSleepEnabled false, Op.setMemoryBank 0x10 true true,
            Op.setMemoryStartAddress 0x06, Op.readMemoryByte, Op.setMemoryBank 0 false false]
          ++ (if b.DEBUG then [Op.getOTPBankValid] else [])
          ++ [Op.setSlaveAddress 0 0x7F, Op.setI2CMasterModeEnabled false,
            Op.setSlaveAddress 0 0x68, Op.resetI2CMaster, Op.delay 20,
            Op.setClockSource b.MPU6050_CLOCK_PLL_ZGYRO,
            Op.setIntEnabled (((1 <<< b.MPU6050_INTERRUPT_FIFO_OFLOW_BIT)
              ||| (1 <<< b.MPU6050_INTERRUPT_DMP_INT_BIT)) % 256),
            Op.setRate 4, Op.setExternalFrameSync b.MPU6050_EXT_SYNC_TEMP_OUT_L,
            Op.setDLPFMode b.MPU6050_DLPF_BW_42, Op.setFullScaleGyroRange b.MPU6050_GYRO_FS_2000,
            Op.writeProgMemoryBlock b.MPU6050_DMP_CODE_SIZE,
            Op.writeMemoryBlock [0x00, b.MPU6050_DMP_FIFO_RATE_DIVISOR % 256] 0x02 0x02 0x16,
            Op.setDMPConfig1 0x03, Op.setDMPConfig2 0x00, Op.setOTPBankValid false,
            Op.setMotionDetectionThreshold 2, Op.setZeroMotionDetectionThreshold 156,
            Op.setMotionDetectionDuration 80, Op.setZeroMotionDetectionDuration 0,
            Op.setFIFOEnabled true, Op.resetDMP, Op.setDMPEnabled false, Op.resetFIFO,
            Op.getIntStatus]
      ∧ (dmpInitialize b mpu).2.dmpPacketSize = 42
      ∧ Op.setDMPEnabled false ∈ issued
      ∧ Op.setDMPEnabled true ∉ issued := by
  obtain ⟨h1, h2, h3, _⟩ := dmpInitialize_spec b mpu
  rw [hok, if_pos rfl] at h1 h2 h3
  refine ⟨_, h1, ?_, rfl, h3, ?_, ?_⟩
  · rw [h2]
    cases hD : b.DEBUG <;> simp [bringUpOps, configOps, hD]
  · cases hD : b.DEBUG <;> simp
  · cases hD : b.DEBUG <;> simp

theorem dmpInitialize_success_sequence_witness :
    ∃ issued, (dmpInitialize stockBuild (freshMPU countingDevice)).1 = 0
      ∧ (dmpInitialize stockBuild (freshMPU countingDevice)).2.trace
          = (freshMPU countingDevice).trace ++ issued
      ∧ issued =
          [Op.reset, Op.delay 30, Op.setSleepEnabled false, Op.setMemoryBank 0x10 true true,
            Op.setMemoryStartAddress 0x06, Op.readMemoryByte, Op.setMemoryBank 0 false false]
          ++ (if stockBuild.DEBUG then [Op.getOTPBankValid] else [])
          ++ [Op.setSlaveAddress 0 0x7F, Op.setI2CMasterModeEnabled false,
            Op.setSlaveAddress 0 0x68, Op.resetI2CMaster, Op.delay 20,
            Op.setClockSource stockBuild.MPU6050_CLOCK_PLL_ZGYRO,
            Op.setIntEnabled (((1 <<< stockBuild.MPU6050_INTERRUPT_FIFO_OFLOW_BIT)
              ||| (1 <<< stockBuild.MPU6050_INTERRUPT_DMP_INT_BIT)) % 256),
            Op.setRate 4, Op.setExternalFrameSync stockBuild.MPU6050_EXT_SYNC_TEMP_OUT_L,
            Op.setDLPFMode stockBuild.MPU6050_DLPF_BW_42,
            Op.setFullScaleGyroRange stockBuild.MPU6050_GYRO_FS_2000,
            Op.writeProgMemoryBlock stockBuild.MPU6050_DMP_CODE_SIZE,
            Op.writeMemoryBlock [0x00, stockBuild.MPU6050_DMP_FIFO_RATE_DIVISOR % 256] 0x02 0x02
              0x16,
            Op.setDMPConfig1 0x03, Op.setDMPConfig2 0x00, Op.setOTPBankValid false,
            Op.setMotionDetectionThreshold 2, Op.setZeroMotionDetectionThreshold 156,
            Op.setMotionDetectionDuration 80, Op.setZeroMotionDetectionDuration 0,
            Op.setFIFOEnabled true, Op.resetDMP, Op.setDMPEnabled false, Op.resetFIFO,
            Op.getIntStatus]
      ∧ (dmpInitialize stockBuild (freshMPU countingDevice)).2.dmpPacketSize = 42
      ∧ Op.setDMPEnabled false ∈ issued
      ∧ Op.setDMPEnabled true ∉ issued :=
  dmpInitialize_success_sequence stockBuild (freshMPU countingDevice) rfl

/-! ## A configuration failure goes unreported -/

/-- C9: the code at the input where it departs from the claim.  On a device that
answers the connection probe, verifies the firmware upload and reports failure
for the configuration write `writeMemoryBlock(dmpUpdate, 0x02, 0x02, 0x16)`,
`dmpInitialize` returns `0` and not the code `2` that the comment in `init`
assigns to a failed configuration update; `init` then returns `true`, and its
calls end with `setDMPEnabled(true)`, `attachInterrupt` and a status read. -/
theorem dmpInitialize_config_failure_unreported :
    patchFailDevice.testConnection (readyTracker ℝ patchFailDevice).mpu.probes = true
      ∧ patchFailDevice.writeProgMemoryBlock (freshMPU patchFailDevice).uploads = true
      ∧ patchFailDevice.writeMemoryBlock (freshMPU patchFailDevice).blockWrites = false
      ∧ (dmpInitialize stockBuild (freshMPU patchFailDevice)).1 = 0
      ∧ (dmpInitialize stockBuild (freshMPU patchFailDevice)).1 ≠ 2
      ∧ Op.writeMemoryBlock [0x00, stockBuild.MPU6050_DMP_FIFO_RATE_DIVISOR % 256] 0x02 0x02 0x16
          ∈ (dmpInitialize stockBuild (freshMPU patchFailDevice)).2.trace
      ∧ ∃ mpu0 t' before,
          connectLoop 6 0 ((busSetup stockBuild (readyTracker ℝ patchFailDevice).mpu).log
              Op.mpuInitialize) = some (true, mpu0)
            ∧ (dmpInitialize stockBuild mpu0).1 = 0
            ∧ init stockBuild (readyTracker ℝ patchFailDevice) 0 0 0 0 0 0 = some (true, t')
            ∧ t'.mpu.trace = before ++ [Op.setDMPEnabled true,
                Op.attachInterrupt
                  (stockBuild.digitalPinToInterrupt (readyTracker ℝ patchFailDevice)._interrupPin)
                  ISR.dmpDataReady EdgeMode.FALLING,
                Op.getIntStatus] := by
  have h := dmpInitialize_spec stockBuild (freshMPU patchFailDevice)
  have hu : (freshMPU patchFailDevice).dev.writeProgMemoryBlock
      (freshMPU patchFailDevice).uploads = true := rfl
  rw [hu, if_pos rfl, if_pos rfl] at h
  refine ⟨rfl, rfl, rfl, h.1, by rw [h.1]; decide, ?_, ?_⟩
  · rw [h.2.1]
    simp [configOps]
  · obtain ⟨_, mpu0, _, hloop, _, hdev⟩ := connectLoop_of_some_success
      ((busSetup stockBuild (readyTracker ℝ patchFailDevice).mpu).log Op.mpuInitialize)
      ⟨0, by decide, rfl⟩
    have hd : mpu0.dev = patchFailDevice := hdev
    have hs : (dmpInitialize stockBuild mpu0).1 = 0 := by
      rw [(dmpInitialize_spec stockBuild mpu0).1, hd]
      rfl
    obtain ⟨t', hinit, htr, _⟩ :=
      init_of_connected stockBuild (readyTracker ℝ patchFailDevice) 0 0 0 0 0 0 mpu0 hloop
    rw [if_pos hs] at htr
    refine ⟨mpu0, t', _, hloop, hs, ?_, htr⟩
    rw [hinit]; simp [hs]

end LEDMatrixGames
